import Mathlib

/-!
Verification of the generic-CRUD dialect engine
(repositorios/repositorio_lectura_sqlserver.py, repositorio_lectura_postgresql.py,
repositorio_lectura_mysql_mariadb.py, servicios/servicio_crud.py,
servicios/utilidades/encriptacion_bcrypt.py).

The Python code is shallowly embedded: dictionaries become association lists
that preserve insertion order, exceptions become an explicit error type
threaded through `Except`, database round trips (catalog lookups, result rows)
become oracle functions passed as parameters, and the statement an operation
issues is reified as a `Stmt` (SQL text plus bound parameters).  The bcrypt
primitive is an external collaborator; it is abstracted as a pair of functions
`hashpw`/`checkpw` about which theorems assume only the documented contract.
Insignificant indentation and line breaks inside the triple-quoted SQL
f-strings of the source are normalized to single spaces.
-/

set_option autoImplicit false

namespace ApiCrud

/-- Python exception kinds that the embedded code can raise.  `valueError` and
`typeError` are the kinds the coercion helper catches; `invalidOperation`
models `decimal.InvalidOperation` (a subclass of `ArithmeticError`, not of
`ValueError`/`TypeError`); `runtimeError` models the `RuntimeError` wrappers
raised by the CRUD operations. -/
inductive PyErr where
  | valueError (msg : String)
  | typeError (msg : String)
  | invalidOperation
  | runtimeError (msg : String)
  deriving Repr, DecidableEq

deriving instance DecidableEq for Except

/-- Textual rendering of an exception, used where the source interpolates
the caught exception into a message. -/
def errText : PyErr → String
  | .valueError m => m
  | .typeError m => m
  | .invalidOperation => "decimal.InvalidOperation"
  | .runtimeError m => m

/-- A parsed Python `decimal.Decimal`: either coefficient times a power of
ten, or one of the special values (NaN, Infinity).  Decimal arithmetic is
never performed by the embedded code, so this exact representation suffices. -/
inductive DecVal where
  | num (coeff : Int) (exp : Int)
  | special (tag : String)
  deriving Repr, DecidableEq

/-- A Python `datetime.date`. -/
structure PyDate where
  year : Nat
  month : Nat
  day : Nat
  deriving Repr, DecidableEq

/-- A Python `datetime.time` (tz-naive; microsecond precision). -/
structure PyTime where
  hour : Nat
  minute : Nat
  second : Nat
  usecond : Nat
  deriving Repr, DecidableEq

/-- A Python `datetime.datetime`; `tzMinutes` is the UTC offset in minutes
when an offset is present. -/
structure PyDateTime where
  date : PyDate
  time : PyTime
  tzMinutes : Option Int
  deriving Repr, DecidableEq

/-- The polymorphic Python values that flow through the engine (the
FieldValue of the specification).  Floats store the exact value of the
parsed literal as coefficient times a power of ten; no claim depends on
IEEE-754 rounding, so that modelling precision is not needed. -/
inductive PyVal where
  | vNone
  | vStr (s : String)
  | vInt (n : Int)
  | vDec (d : DecVal)
  | vFloat (coeff : Int) (exp : Int)
  | vFloatSpecial (tag : String)
  | vBool (b : Bool)
  | vUUID (canonical : String)
  | vDate (d : PyDate)
  | vDateTime (dt : PyDateTime)
  | vTime (t : PyTime)
  | vBytes (bs : List Nat)
  deriving Repr, DecidableEq

/-- Python truthiness of the values above (`bool(v)`). -/
def pyTruthy : PyVal → Bool
  | .vNone => false
  | .vStr s => s ≠ ""
  | .vInt n => n ≠ 0
  | .vDec (.num c _) => c ≠ 0
  | .vDec (.special _) => true
  | .vFloat c _ => c ≠ 0
  | .vFloatSpecial t => t ≠ "nan" || true
  | .vBool b => b
  | .vUUID _ => true
  | .vDate _ => true
  | .vDateTime _ => true
  | .vTime _ => true
  | .vBytes bs => bs ≠ []

/-- Python `str(v)` for the values the embedded code passes to `str`.
Only the string and integer cases are exercised by the theorems below;
the remaining cases are best-effort renderings. -/
def pyStr : PyVal → String
  | .vNone => "None"
  | .vStr s => s
  | .vInt n => toString n
  | .vBool true => "True"
  | .vBool false => "False"
  | .vUUID c => c
  | _ => "<valor>"

/-! ## Models of the Python string builtins used by the source -/

/-- Character of a decimal digit (`n` is always reduced mod 10 by callers). -/
def dChar : Nat → Char
  | 0 => '0' | 1 => '1' | 2 => '2' | 3 => '3' | 4 => '4'
  | 5 => '5' | 6 => '6' | 7 => '7' | 8 => '8' | _ => '9'

/-- Numeric value of a digit character. -/
def dVal (c : Char) : Nat := c.toNat - 48

/-- Drop leading and trailing characters satisfying a predicate
(`str.strip(chars)`; with `Char.isWhitespace`, plain `str.strip()`). -/
def stripChars (p : Char → Bool) (l : List Char) : List Char :=
  ((l.dropWhile p).reverse.dropWhile p).reverse

/-- `str.strip()`: remove surrounding whitespace.  (Python strips a slightly
larger Unicode whitespace class; the difference is immaterial here.) -/
def pyStrip (s : String) : String := String.mk (stripChars Char.isWhitespace s.data)

/-- `str.lower()` (ASCII case folding, as `Char.toLower` provides). -/
def pyToLower (s : String) : String := String.mk (s.data.map Char.toLower)

/-- `str.split(sep)` over character lists, with explicit fuel so that the
recursion is structural. -/
def splitListOnFuel (sep : List Char) : Nat → List Char → List (List Char)
  | 0, l => [l]
  | _ + 1, [] => [[]]
  | fuel + 1, c :: rest =>
    if sep ≠ [] ∧ sep.isPrefixOf (c :: rest) then
      [] :: splitListOnFuel sep fuel ((c :: rest).drop sep.length)
    else
      match splitListOnFuel sep fuel rest with
      | [] => [[c]]
      | g :: gs => (c :: g) :: gs

/-- `str.split(sep)` over character lists. -/
def splitListOn (sep : List Char) (l : List Char) : List (List Char) :=
  splitListOnFuel sep l.length l

/-- `str.split(sep)` for a nonempty separator. -/
def pySplitOn (s sep : String) : List String :=
  (splitListOn sep.data s.data).map String.mk

/-- Two-digit zero-padded rendering (used by `isoformat`). -/
def pad2 (n : Nat) : List Char := [dChar (n / 10 % 10), dChar (n % 10)]

/-- Four-digit zero-padded rendering (used by `isoformat`). -/
def pad4 (n : Nat) : List Char :=
  [dChar (n / 1000 % 10), dChar (n / 100 % 10), dChar (n / 10 % 10), dChar (n % 10)]

/-- Gregorian leap-year test, as `datetime` implements it. -/
def isLeap (y : Nat) : Bool := y % 4 == 0 && (y % 100 != 0 || y % 400 == 0)

/-- Days in a month, as `datetime` implements it. -/
def daysInMonth (y m : Nat) : Nat :=
  if m == 2 then (if isLeap y then 29 else 28)
  else if m == 4 || m == 6 || m == 9 || m == 11 then 30
  else 31

/-- The range checks `datetime.date` performs on construction. -/
def validDate (y m d : Nat) : Bool :=
  1 ≤ y && y ≤ 9999 && 1 ≤ m && m ≤ 12 && 1 ≤ d && d ≤ daysInMonth y m

/-- The range checks `datetime.time` performs on construction. -/
def validTime (hh mm ss : Nat) : Bool :=
  hh ≤ 23 && mm ≤ 59 && ss ≤ 59

/-- `date.fromisoformat` on the canonical `YYYY-MM-DD` shape: ten characters,
digits in the year/month/day positions, hyphen separators, and a valid
calendar date.  (Python 3.11 additionally accepts other ISO-8601 shapes; the
embedded code only reaches this parser with ten-character candidates, via
`valor[:10]`, so the canonical shape is the relevant domain.) -/
def dateFromIsoChars : List Char → Option PyDate
  | [y1, y2, y3, y4, h1, m1, m2, h2, d1, d2] =>
    if y1.isDigit && y2.isDigit && y3.isDigit && y4.isDigit &&
       h1 == '-' && m1.isDigit && m2.isDigit && h2 == '-' &&
       d1.isDigit && d2.isDigit then
      let y := dVal y1 * 1000 + dVal y2 * 100 + dVal y3 * 10 + dVal y4
      let m := dVal m1 * 10 + dVal m2
      let d := dVal d1 * 10 + dVal d2
      if validDate y m d then some ⟨y, m, d⟩ else none
    else none
  | _ => none

/-- `date.fromisoformat` proper. -/
def dateFromIso (s : String) : Option PyDate := dateFromIsoChars s.data

/-- Parse `HH:MM[:SS]` (the time shapes the embedded code can produce;
fractional seconds are accepted by Python but never reach the model in any
theorem below, so they are conservatively rejected). -/
def timeFromIsoChars (cs : List Char) : Option PyTime :=
  match cs with
  | [a1, a2, c1, b1, b2] =>
    if a1.isDigit && a2.isDigit && c1 == ':' && b1.isDigit && b2.isDigit then
      let hh := dVal a1 * 10 + dVal a2
      let mm := dVal b1 * 10 + dVal b2
      if validTime hh mm 0 then some ⟨hh, mm, 0, 0⟩ else none
    else none
  | [a1, a2, c1, b1, b2, c2, s1, s2] =>
    if a1.isDigit && a2.isDigit && c1 == ':' && b1.isDigit && b2.isDigit &&
       c2 == ':' && s1.isDigit && s2.isDigit then
      let hh := dVal a1 * 10 + dVal a2
      let mm := dVal b1 * 10 + dVal b2
      let ss := dVal s1 * 10 + dVal s2
      if validTime hh mm ss then some ⟨hh, mm, ss, 0⟩ else none
    else none
  | _ => none

/-- `time.fromisoformat`. -/
def timeFromIso (s : String) : Option PyTime := timeFromIsoChars s.data

/-- Split a character list at the first occurrence of a separator. -/
def splitAtChar (sep : Char) : List Char → Option (List Char × List Char)
  | [] => none
  | c :: rest =>
    if c == sep then some ([], rest)
    else match splitAtChar sep rest with
      | some (l, r) => some (c :: l, r)
      | none => none

/-- Parse an optional UTC offset suffix `+HH:MM` / `-HH:MM` from the end of a
time string, returning the remaining time characters and the offset in
minutes. -/
def splitTzSuffix (cs : List Char) : List Char × Option Int :=
  let n := cs.length
  if n ≥ 6 then
    let tzPart := cs.drop (n - 6)
    match tzPart with
    | [sgn, a1, a2, col, b1, b2] =>
      if (sgn == '+' || sgn == '-') && a1.isDigit && a2.isDigit &&
         col == ':' && b1.isDigit && b2.isDigit then
        let mins : Int := (dVal a1 * 10 + dVal a2) * 60 + (dVal b1 * 10 + dVal b2)
        (cs.take (n - 6), some (if sgn == '-' then -mins else mins))
      else (cs, none)
    | _ => (cs, none)
  else (cs, none)

/-- `datetime.fromisoformat` (Python ≥ 3.11): a date part, optionally
followed by a `T` or space separator, a time part, and an optional UTC
offset.  A bare `YYYY-MM-DD` parses to midnight. -/
def datetimeFromIso (s : String) : Option PyDateTime :=
  match splitAtChar 'T' s.data with
  | none =>
    match dateFromIso s with
    | some d => some ⟨d, ⟨0, 0, 0, 0⟩, none⟩
    | none => none
  | some (datePart, timePart) =>
    match dateFromIso (String.mk datePart) with
    | none => none
    | some d =>
      let (tcs, tz) := splitTzSuffix timePart
      match timeFromIsoChars tcs with
      | some t => some ⟨d, t, tz⟩
      | none => none

/-- `date.isoformat`: zero-padded `YYYY-MM-DD`. -/
def dateIso (d : PyDate) : String :=
  String.mk (pad4 d.year ++ '-' :: pad2 d.month ++ '-' :: pad2 d.day)

/-- `str.replace(sub, repl)` over character lists, with explicit fuel so
that the recursion is structural (the fuel is the input length, which
bounds the number of steps; each step consumes at least one character). -/
def replaceListFuel (sub repl : List Char) : Nat → List Char → List Char
  | 0, l => l
  | _ + 1, [] => []
  | fuel + 1, c :: rest =>
    if sub ≠ [] ∧ sub.isPrefixOf (c :: rest) then
      repl ++ replaceListFuel sub repl fuel ((c :: rest).drop sub.length)
    else
      c :: replaceListFuel sub repl fuel rest

/-- `str.replace(sub, repl)` over character lists. -/
def replaceList (sub repl : List Char) (l : List Char) : List Char :=
  replaceListFuel sub repl l.length l

/-- `str.replace`. -/
def pyReplace (s sub repl : String) : String :=
  String.mk (replaceList sub.data repl.data s.data)

/-- Python string truthiness-plus-strip emptiness: `not s or not s.strip()`. -/
def esVacia (s : String) : Bool := s == "" || pyStrip s == ""

/-- `(opt or default)` for an optional string argument: `None` and the empty
string are both falsy in Python. -/
def pyOrStr (o : Option String) (dflt : String) : String :=
  match o with
  | none => dflt
  | some s => if s == "" then dflt else s

/-- `(opt or default)` for an optional integer argument: `None` and `0` are
falsy in Python. -/
def pyOrInt (o : Option Int) (dflt : Int) : Int :=
  match o with
  | none => dflt
  | some n => if n == 0 then dflt else n

/-- Accumulate a run of leading decimal digits, returning the value, the
number of digits consumed, and the remaining characters. -/
def takeDigitsAcc (acc ndigits : Nat) : List Char → Nat × Nat × List Char
  | [] => (acc, ndigits, [])
  | c :: rest =>
    if c.isDigit then takeDigitsAcc (acc * 10 + dVal c) (ndigits + 1) rest
    else (acc, ndigits, c :: rest)

/-- Digit run in which single underscores may separate digits, as `int()`
accepts since Python 3.6. -/
def digitsUnderTail (acc : Nat) : List Char → Option Nat
  | [] => some acc
  | '_' :: c :: rest => if c.isDigit then digitsUnderTail (acc * 10 + dVal c) rest else none
  | c :: rest => if c.isDigit then digitsUnderTail (acc * 10 + dVal c) rest else none

/-- `int(s)` for ASCII input: optional surrounding whitespace, optional sign,
one or more digits with optional single separating underscores.  Returns
`none` where Python raises `ValueError`. -/
def pyIntOfString (s : String) : Option Int :=
  let t := (pyStrip s).data
  let (neg, body) :=
    match t with
    | '+' :: rest => (false, rest)
    | '-' :: rest => (true, rest)
    | rest => (false, rest)
  match body with
  | c :: rest =>
    if c.isDigit then
      match digitsUnderTail (dVal c) rest with
      | some n => some (if neg then -(n : Int) else (n : Int))
      | none => none
    else none
  | [] => none

/-- Unsigned numeric literal `digits [. digits] [e [sign] digits]` over
lower-cased characters, returned as a coefficient and a power-of-ten
exponent.  (Underscore separators, accepted by Python, are not modelled;
no claim exercises them.) -/
def parseUnsignedNumber (cs : List Char) : Option (Nat × Int) :=
  let (ip, ic, r1) := takeDigitsAcc 0 0 cs
  let (fp, fc, r2) :=
    match r1 with
    | '.' :: rest => takeDigitsAcc 0 0 rest
    | _ => (0, 0, r1)
  if ic + fc == 0 then none
  else
    let coeff := ip * 10 ^ fc + fp
    let baseExp : Int := -(fc : Int)
    match r2 with
    | [] => some (coeff, baseExp)
    | 'e' :: rest =>
      let (esgn, rest2) : Int × List Char :=
        match rest with
        | '+' :: r => (1, r)
        | '-' :: r => (-1, r)
        | r => (1, r)
      let (ev, en, r3) := takeDigitsAcc 0 0 rest2
      if en == 0 || !r3.isEmpty then none else some (coeff, baseExp + esgn * ev)
    | _ => none

/-- `decimal.Decimal(s)`: optional whitespace and sign, then a numeric
literal or one of the special tokens.  Returns `none` where Python raises
`decimal.InvalidOperation`. -/
def pyDecimalOfString (s : String) : Option DecVal :=
  let t := (pyToLower (pyStrip s)).data
  let (neg, body) :=
    match t with
    | '+' :: rest => (false, rest)
    | '-' :: rest => (true, rest)
    | rest => (false, rest)
  if body == "nan".data || body == "snan".data then some (.special "nan")
  else if body == "inf".data || body == "infinity".data then
    some (.special (if neg then "-inf" else "inf"))
  else
    match parseUnsignedNumber body with
    | some (c, e) => some (.num (if neg then -(c : Int) else (c : Int)) e)
    | none => none

/-- `float(s)`: optional whitespace and sign, then a numeric literal or an
infinity/NaN token.  Returns `none` where Python raises `ValueError`. -/
def pyFloatOfString (s : String) : Option PyVal :=
  let t := (pyToLower (pyStrip s)).data
  let (neg, body) :=
    match t with
    | '+' :: rest => (false, rest)
    | '-' :: rest => (true, rest)
    | rest => (false, rest)
  if body == "nan".data then some (.vFloatSpecial "nan")
  else if body == "inf".data || body == "infinity".data then
    some (.vFloatSpecial (if neg then "-inf" else "inf"))
  else
    match parseUnsignedNumber body with
    | some (c, e) => some (.vFloat (if neg then -(c : Int) else (c : Int)) e)
    | none => none

/-- ASCII hexadecimal digit test. -/
def esHexDigit (c : Char) : Bool :=
  c.isDigit || ('a' ≤ c && c ≤ 'f') || ('A' ≤ c && c ≤ 'F')

/-- `uuid.UUID(s)`: drop `urn:`/`uuid:` markers and surrounding braces,
remove hyphens, and require exactly 32 hexadecimal digits; the canonical
lower-case hyphenated form is returned.  Returns `none` where Python raises
`ValueError`. -/
def pyUUIDOfString (s : String) : Option String :=
  let h1 := replaceList "urn:".data [] s.data
  let h2 := replaceList "uuid:".data [] h1
  let h3 := stripChars (fun c => c == Char.ofNat 123 || c == Char.ofNat 125) h2
  let h4 := replaceList "-".data [] h3
  if h4.length == 32 && h4.all esHexDigit then
    let low := h4.map Char.toLower
    some (String.mk (low.take 8 ++ '-' :: (low.drop 8).take 4 ++ '-' ::
      (low.drop 12).take 4 ++ '-' :: (low.drop 16).take 4 ++ '-' :: low.drop 20))
  else none

/-- Six-digit zero-padded rendering (microseconds in `isoformat`). -/
def pad6 (n : Nat) : List Char :=
  [dChar (n / 100000 % 10), dChar (n / 10000 % 10), dChar (n / 1000 % 10),
   dChar (n / 100 % 10), dChar (n / 10 % 10), dChar (n % 10)]

/-- `time.isoformat` (microseconds rendered only when nonzero, as in
Python). -/
def timeIso (t : PyTime) : List Char :=
  pad2 t.hour ++ ':' :: pad2 t.minute ++ ':' :: pad2 t.second ++
    (if t.usecond == 0 then [] else '.' :: pad6 t.usecond)

/-- `datetime.isoformat` with `T` separator and optional UTC offset. -/
def datetimeIso (dt : PyDateTime) : String :=
  let offset :=
    match dt.tzMinutes with
    | none => []
    | some off =>
      let a := off.natAbs
      (if off < 0 then '-' else '+') :: pad2 (a / 60) ++ ':' :: pad2 (a % 60)
  String.mk ((dateIso dt.date).data ++ 'T' :: timeIso dt.time ++ offset)

/-! ## Shared private helpers of the three dialect classes

`_extraer_solo_fecha` and `_es_fecha_sin_hora` appear verbatim in all three
repository classes; they are embedded once. -/

/-- `_extraer_solo_fecha`: extract the date part of an ISO string --- via
`datetime.fromisoformat(valor.replace(Z, +00:00)).date()` when a `T` is
present, else `date.fromisoformat(valor[:10])`.  An unparsable string is a
`ValueError`. -/
def extraerSoloFecha (valor : String) : Except PyErr PyDate :=
  if valor.data.contains 'T' then
    match datetimeFromIso (pyReplace valor "Z" "+00:00") with
    | some dt => .ok dt.date
    | none => .error (.valueError "Invalid isoformat string")
  else
    match dateFromIso (String.mk (valor.data.take 10)) with
    | some d => .ok d
    | none => .error (.valueError "Invalid isoformat string")

/-- `_es_fecha_sin_hora`: ten characters, exactly two hyphens, no `T`. -/
def esFechaSinHora (valor : String) : Bool :=
  valor.length == 10 && valor.data.count '-' == 2 && !(valor.data.contains 'T')

/-! ## Type Coercion Engine, per dialect

Each `_convertir_valor` wraps its body in `try: ... except (ValueError,
TypeError): return valor`.  In the embedding every conversion that Python
aborts with `ValueError` therefore falls back to `.ok (.vStr valor)`
directly; the `Decimal` constructor instead aborts with
`decimal.InvalidOperation`, which the `except` clause does not name, so the
decimal branch propagates `.error .invalidOperation`. -/

/-- The SQL Server catalog types coerced to full datetimes by
`_convertir_valor`. -/
def familiaTimestampSqlServer : List String := ["datetime", "datetime2", "smalldatetime"]

/-- The PostgreSQL catalog types coerced to full datetimes by
`_convertir_valor`. -/
def familiaTimestampPg : List String :=
  ["timestamp without time zone", "timestamp with time zone"]

/-- The MySQL/MariaDB catalog types coerced to full datetimes by
`_convertir_valor`. -/
def familiaTimestampMysql : List String := ["datetime", "timestamp"]

/-- `_convertir_valor` of `RepositorioLecturaSqlServer`. -/
def convertirValorSqlServer (valor : String) (tipoDestino : Option String) :
    Except PyErr PyVal :=
  match tipoDestino with
  | none => .ok (.vStr valor)
  | some tipo =>
    if ["int", "bigint", "smallint", "tinyint"].contains tipo then
      match pyIntOfString valor with
      | some n => .ok (.vInt n)
      | none => .ok (.vStr valor)
    else if ["decimal", "numeric", "money", "smallmoney"].contains tipo then
      match pyDecimalOfString valor with
      | some d => .ok (.vDec d)
      | none => .error .invalidOperation
    else if ["float", "real"].contains tipo then
      match pyFloatOfString valor with
      | some v => .ok v
      | none => .ok (.vStr valor)
    else if tipo == "bit" then
      .ok (.vBool (["true", "1", "yes", "si"].contains (pyToLower valor)))
    else if tipo == "uniqueidentifier" then
      match pyUUIDOfString valor with
      | some u => .ok (.vUUID u)
      | none => .ok (.vStr valor)
    else if tipo == "date" then
      match extraerSoloFecha valor with
      | .ok d => .ok (.vDate d)
      | .error _ => .ok (.vStr valor)
    else if familiaTimestampSqlServer.contains tipo then
      match datetimeFromIso (pyReplace valor "Z" "+00:00") with
      | some dt => .ok (.vDateTime dt)
      | none => .ok (.vStr valor)
    else if tipo == "time" then
      match timeFromIso valor with
      | some t => .ok (.vTime t)
      | none => .ok (.vStr valor)
    else .ok (.vStr valor)

/-- `_convertir_valor` of `RepositorioLecturaPostgreSQL`. -/
def convertirValorPostgres (valor : String) (tipoDestino : Option String) :
    Except PyErr PyVal :=
  match tipoDestino with
  | none => .ok (.vStr valor)
  | some tipo =>
    if ["integer", "int4", "bigint", "int8", "smallint", "int2"].contains tipo then
      match pyIntOfString valor with
      | some n => .ok (.vInt n)
      | none => .ok (.vStr valor)
    else if ["numeric", "decimal"].contains tipo then
      match pyDecimalOfString valor with
      | some d => .ok (.vDec d)
      | none => .error .invalidOperation
    else if ["real", "float4", "double precision", "float8"].contains tipo then
      match pyFloatOfString valor with
      | some v => .ok v
      | none => .ok (.vStr valor)
    else if ["boolean", "bool"].contains tipo then
      .ok (.vBool (["true", "1", "yes", "si", "t"].contains (pyToLower valor)))
    else if tipo == "uuid" then
      match pyUUIDOfString valor with
      | some u => .ok (.vUUID u)
      | none => .ok (.vStr valor)
    else if tipo == "date" then
      match extraerSoloFecha valor with
      | .ok d => .ok (.vDate d)
      | .error _ => .ok (.vStr valor)
    else if familiaTimestampPg.contains tipo then
      match datetimeFromIso (pyReplace valor "Z" "+00:00") with
      | some dt => .ok (.vDateTime dt)
      | none => .ok (.vStr valor)
    else if tipo == "time" then
      match timeFromIso valor with
      | some t => .ok (.vTime t)
      | none => .ok (.vStr valor)
    else .ok (.vStr valor)

/-- `_convertir_valor` of `RepositorioLecturaMysqlMariaDB`. -/
def convertirValorMysql (valor : String) (tipoDestino : Option String) :
    Except PyErr PyVal :=
  match tipoDestino with
  | none => .ok (.vStr valor)
  | some tipo =>
    if ["int", "integer", "bigint", "smallint", "tinyint", "mediumint"].contains tipo then
      match pyIntOfString valor with
      | some n => .ok (.vInt n)
      | none => .ok (.vStr valor)
    else if ["decimal", "numeric"].contains tipo then
      match pyDecimalOfString valor with
      | some d => .ok (.vDec d)
      | none => .error .invalidOperation
    else if ["float", "double", "real"].contains tipo then
      match pyFloatOfString valor with
      | some v => .ok v
      | none => .ok (.vStr valor)
    else if tipo == "bit" then
      .ok (.vBool (["true", "1", "yes", "si"].contains (pyToLower valor)))
    else if tipo == "date" then
      match extraerSoloFecha valor with
      | .ok d => .ok (.vDate d)
      | .error _ => .ok (.vStr valor)
    else if familiaTimestampMysql.contains tipo then
      match datetimeFromIso (pyReplace valor "Z" "+00:00") with
      | some dt => .ok (.vDateTime dt)
      | none => .ok (.vStr valor)
    else if tipo == "time" then
      match timeFromIso valor with
      | some t => .ok (.vTime t)
      | none => .ok (.vStr valor)
    else .ok (.vStr valor)

/-- `_serializar_valor` of `RepositorioLecturaPostgreSQL` (the Row Codec):
datetimes and dates to ISO-8601 strings, decimals to floats, UUIDs to
strings, everything else unchanged. -/
def serializarValorPg (valor : PyVal) : PyVal :=
  match valor with
  | .vDateTime dt => .vStr (datetimeIso dt)
  | .vDate d => .vStr (dateIso d)
  | .vDec (.num c e) => .vFloat c e
  | .vDec (.special t) => .vFloatSpecial t
  | .vUUID u => .vStr u
  | v => v

/-! ## Statements and oracles

A CRUD operation is modelled up to the statement it issues: the SQL text it
builds and the parameter dictionary it binds.  Catalog lookups are oracles:
a `Catalogo3` maps the bind parameters (esquema, tabla, columna) of the
catalog query to either the first fetched cell or a lookup failure;
`Catalogo2` is the MySQL/MariaDB shape, whose query filters by the current
database instead of an explicit schema. -/

/-- A parameterized SQL statement: text plus bound parameter dictionary. -/
structure Stmt where
  sql : String
  params : List (String × PyVal)
  deriving Repr, DecidableEq

/-- Catalog oracle keyed by (esquema, tabla, columna). -/
abbrev Catalogo3 := String → String → String → Except Unit (Option String)

/-- Catalog oracle keyed by (tabla, columna), schema implicit (`DATABASE()`). -/
abbrev Catalogo2 := String → String → Except Unit (Option String)

/-- Python dict assignment `d[k] = v` on an insertion-ordered association
list: replace in place when the key exists, else append.  (Key lists coming
from Python dicts have no duplicates.) -/
def pyDictSet (l : List (String × PyVal)) (k : String) (v : PyVal) :
    List (String × PyVal) :=
  if l.any (fun kv => kv.1 == k) then
    l.map (fun kv => if kv.1 == k then (k, v) else kv)
  else l ++ [(k, v)]

/-! ## bcrypt utility (`encriptacion_bcrypt.py`)

`bcrypt.hashpw`/`bcrypt.checkpw` are an external library; they are abstracted
as function parameters `hashpw`/`checkpw`.  `checkpw` is total: the `try`
in `verificar` converts every bcrypt exception to `False`, so the oracle
already folds that in. -/

/-- `encriptar`: reject empty/whitespace input and an out-of-range cost,
else produce the bcrypt hash of the value. -/
def encriptarM (hashpw : String → String) (valorOriginal : String)
    (costo : Int := 12) : Except PyErr String :=
  if esVacia valorOriginal then
    .error (.valueError "El valor a encriptar no puede estar vacío.")
  else if !(4 ≤ costo && costo ≤ 31) then
    .error (.valueError "El costo debe estar entre 4 y 31.")
  else .ok (hashpw valorOriginal)

/-- `verificar`: reject empty/whitespace inputs, else compare via
`bcrypt.checkpw` (exceptions already folded to `false` by its `try`). -/
def verificarM (checkpw : String → String → Bool)
    (valorOriginal hashExistente : String) : Except PyErr Bool :=
  if esVacia valorOriginal then
    .error (.valueError "El valor a verificar no puede estar vacío.")
  else if esVacia hashExistente then
    .error (.valueError "El hash existente no puede estar vacío.")
  else .ok (checkpw valorOriginal hashExistente)

/-- Effectful map over a list in `Except`, stopping at the first error
(the loop shape of the Python `for` bodies below). -/
def mapMExcept {α β : Type} (f : α → Except PyErr β) : List α → Except PyErr (List β)
  | [] => .ok []
  | x :: xs =>
    match f x with
    | .error e => .error e
    | .ok y =>
      match mapMExcept f xs with
      | .error e => .error e
      | .ok ys => .ok (y :: ys)

/-! ## Encryption-directive handling (shared shape of all six write paths) -/

/-- The set comprehension over `campos_encriptar.split(",")`: trimmed,
lower-cased, empties dropped. -/
def camposAEncriptar (campos : String) : List String :=
  (pySplitOn campos ",").filterMap fun c =>
    if pyStrip c == "" then none else some (pyToLower (pyStrip c))

/-- `datos_finales = dict(datos)` followed by the encryption loop: every
field whose lower-cased name is in the directive set and whose value is
truthy is replaced by `encriptar(str(value))`.  `encriptar` may raise
`ValueError` (whitespace-only value), which propagates: the loop sits before
the `try` block in every operation. -/
def prepararEncriptacion (hashpw : String → String)
    (datos : List (String × PyVal)) :
    Option String → Except PyErr (List (String × PyVal))
  | none => .ok datos
  | some cs =>
    if cs == "" then .ok datos
    else
      mapMExcept (fun kv =>
        if (camposAEncriptar cs).contains (pyToLower kv.1) && pyTruthy kv.2 then
          (encriptarM hashpw (pyStr kv.2)).map (fun h => (kv.1, PyVal.vStr h))
        else .ok kv) datos

/-! ## `RepositorioLecturaSqlServer` -/

/-- `_detectar_tipo_columna` (SQL Server): lower-cased catalog type when a
row is found, `None` when no row matches, `None` on any lookup failure. -/
def detectarTipoColumnaSqlServer (cat : Catalogo3)
    (tabla esquema columna : String) : Option String :=
  match cat esquema tabla columna with
  | .ok (some t) => some (pyToLower t)
  | .ok none => none
  | .error _ => none

/-- `(esquema or "dbo").strip()`. -/
def esquemaFinalSqlServer (esquema : Option String) : String :=
  pyStrip (pyOrStr esquema "dbo")

/-- The per-field `valores` loop of `crear`/`actualizar` (SQL Server):
string values get their column type detected and are coerced; non-string
values pass through.  An uncaught coercion error aborts the loop. -/
def convertirEntradaSqlServer (cat : Catalogo3) (tabla esquemaFinal : String) :
    (String × PyVal) → Except PyErr (String × PyVal)
  | (k, .vStr s) =>
    (convertirValorSqlServer s
      (detectarTipoColumnaSqlServer cat tabla esquemaFinal k)).map (fun w => (k, w))
  | (k, w) => .ok (k, w)

def construirValoresSqlServer (cat : Catalogo3) (tabla esquemaFinal : String)
    (datosFinales : List (String × PyVal)) :
    Except PyErr (List (String × PyVal)) :=
  mapMExcept (convertirEntradaSqlServer cat tabla esquemaFinal) datosFinales

/-- `obtener_filas` (SQL Server), up to the issued statement. -/
def obtenerFilasSqlServer (tabla : String) (esquema : Option String)
    (limite : Option Int) : Except PyErr Stmt :=
  if esVacia tabla then
    .error (.valueError "El nombre de la tabla no puede estar vacío")
  else
    let esquemaFinal := esquemaFinalSqlServer esquema
    let limiteFinal := pyOrInt limite 1000
    .ok { sql := "SELECT TOP (" ++ toString limiteFinal ++ ") * FROM [" ++
            esquemaFinal ++ "].[" ++ tabla ++ "]",
          params := [] }

/-- `obtener_por_clave` (SQL Server): a `datetime`/`datetime2` column
filtered with a date-only value compares `CAST(col AS DATE)`, otherwise the
coerced value is compared directly; failures inside the `try` become
`RuntimeError`. -/
def obtenerPorClaveSqlServer (cat : Catalogo3) (tabla clave valor : String)
    (esquema : Option String) : Except PyErr Stmt :=
  if esVacia tabla then
    .error (.valueError "El nombre de la tabla no puede estar vacío")
  else if esVacia clave then
    .error (.valueError "El nombre de la clave no puede estar vacío")
  else if esVacia valor then
    .error (.valueError "El valor no puede estar vacío")
  else
    let esquemaFinal := esquemaFinalSqlServer esquema
    let tipoColumna := detectarTipoColumnaSqlServer cat tabla esquemaFinal clave
    let cuerpo : Except PyErr Stmt :=
      if (tipoColumna == some "datetime" || tipoColumna == some "datetime2") &&
         esFechaSinHora valor then
        match extraerSoloFecha valor with
        | .ok d =>
          .ok { sql := "SELECT * FROM [" ++ esquemaFinal ++ "].[" ++ tabla ++
                  "] WHERE CAST([" ++ clave ++ "] AS DATE) = :valor",
                params := [("valor", .vDate d)] }
        | .error e => .error e
      else
        match convertirValorSqlServer valor tipoColumna with
        | .ok w =>
          .ok { sql := "SELECT * FROM [" ++ esquemaFinal ++ "].[" ++ tabla ++
                  "] WHERE [" ++ clave ++ "] = :valor",
                params := [("valor", w)] }
        | .error e => .error e
    match cuerpo with
    | .ok st => .ok st
    | .error e =>
      .error (.runtimeError ("Error SQL Server al filtrar " ++ esquemaFinal ++
        "." ++ tabla ++ ": " ++ errText e))

/-- The part of `crear` (SQL Server) after `datos_finales` is ready:
statement text from the keys, `valores` loop inside the `try`. -/
def crearSqlServerDesde (cat : Catalogo3) (tabla esquemaFinal : String)
    (datosFinales : List (String × PyVal)) : Except PyErr Stmt :=
  let columnas := String.intercalate ", "
    (datosFinales.map (fun kv => "[" ++ kv.1 ++ "]"))
  let parametros := String.intercalate ", "
    (datosFinales.map (fun kv => ":" ++ kv.1))
  let sqlTexto := "INSERT INTO [" ++ esquemaFinal ++ "].[" ++ tabla ++
    "] (" ++ columnas ++ ") VALUES (" ++ parametros ++ ")"
  match construirValoresSqlServer cat tabla esquemaFinal datosFinales with
  | .ok valores => .ok { sql := sqlTexto, params := valores }
  | .error e =>
    .error (.runtimeError ("Error SQL Server al insertar en " ++
      esquemaFinal ++ "." ++ tabla ++ ": " ++ errText e))

/-- `crear` (SQL Server), up to the issued INSERT. -/
def crearSqlServer (hashpw : String → String) (cat : Catalogo3)
    (tabla : String) (datos : List (String × PyVal)) (esquema : Option String)
    (camposEncriptar : Option String) : Except PyErr Stmt :=
  if esVacia tabla then
    .error (.valueError "El nombre de la tabla no puede estar vacío")
  else if datos == [] then
    .error (.valueError "Los datos no pueden estar vacíos")
  else
    let esquemaFinal := esquemaFinalSqlServer esquema
    match prepararEncriptacion hashpw datos camposEncriptar with
    | .error e => .error e
    | .ok datosFinales => crearSqlServerDesde cat tabla esquemaFinal datosFinales

/-- The part of `actualizar` (SQL Server) after `datos_finales` is ready:
SET clause, then inside the `try` the `valores` loop, key-type detection and
key coercion, and the dict assignment of `valor_clave`. -/
def actualizarSqlServerDesde (cat : Catalogo3)
    (tabla clave valorClave esquemaFinal : String)
    (datosFinales : List (String × PyVal)) : Except PyErr Stmt :=
  let clausulaSet := String.intercalate ", "
    (datosFinales.map (fun kv => "[" ++ kv.1 ++ "] = :" ++ kv.1))
  let sqlTexto := "UPDATE [" ++ esquemaFinal ++ "].[" ++ tabla ++
    "] SET " ++ clausulaSet ++ " WHERE [" ++ clave ++ "] = :valor_clave"
  let cuerpo : Except PyErr Stmt :=
    match construirValoresSqlServer cat tabla esquemaFinal datosFinales with
    | .error e => .error e
    | .ok valores =>
      let tipoClave := detectarTipoColumnaSqlServer cat tabla esquemaFinal clave
      match convertirValorSqlServer valorClave tipoClave with
      | .error e => .error e
      | .ok w => .ok { sql := sqlTexto, params := pyDictSet valores "valor_clave" w }
  match cuerpo with
  | .ok st => .ok st
  | .error e =>
    .error (.runtimeError ("Error SQL Server al actualizar " ++
      esquemaFinal ++ "." ++ tabla ++ ": " ++ errText e))

/-- `actualizar` (SQL Server): per-field coercion as in `crear`, then the
key column type is detected and the key value coerced before being bound as
`valor_clave`. -/
def actualizarSqlServer (hashpw : String → String) (cat : Catalogo3)
    (tabla clave valorClave : String) (datos : List (String × PyVal))
    (esquema : Option String) (camposEncriptar : Option String) :
    Except PyErr Stmt :=
  if esVacia tabla then
    .error (.valueError "El nombre de la tabla no puede estar vacío")
  else if esVacia clave then
    .error (.valueError "El nombre de la clave no puede estar vacío")
  else if esVacia valorClave then
    .error (.valueError "El valor de la clave no puede estar vacío")
  else if datos == [] then
    .error (.valueError "Los datos no pueden estar vacíos")
  else
    let esquemaFinal := esquemaFinalSqlServer esquema
    match prepararEncriptacion hashpw datos camposEncriptar with
    | .error e => .error e
    | .ok datosFinales =>
      actualizarSqlServerDesde cat tabla clave valorClave esquemaFinal datosFinales

/-- `eliminar` (SQL Server): the key column type is detected and the key
value coerced before being bound as `valor_clave`. -/
def eliminarSqlServer (cat : Catalogo3) (tabla clave valorClave : String)
    (esquema : Option String) : Except PyErr Stmt :=
  if esVacia tabla then
    .error (.valueError "El nombre de la tabla no puede estar vacío")
  else if esVacia clave then
    .error (.valueError "El nombre de la clave no puede estar vacío")
  else if esVacia valorClave then
    .error (.valueError "El valor de la clave no puede estar vacío")
  else
    let esquemaFinal := esquemaFinalSqlServer esquema
    let sqlTexto := "DELETE FROM [" ++ esquemaFinal ++ "].[" ++ tabla ++
      "] WHERE [" ++ clave ++ "] = :valor_clave"
    let tipoClave := detectarTipoColumnaSqlServer cat tabla esquemaFinal clave
    match convertirValorSqlServer valorClave tipoClave with
    | .ok w => .ok { sql := sqlTexto, params := [("valor_clave", w)] }
    | .error e =>
      .error (.runtimeError ("Error SQL Server al eliminar de " ++
        esquemaFinal ++ "." ++ tabla ++ ": " ++ errText e))

/-- `obtener_hash_contrasena` (SQL Server): `fila` is the first fetched
cell of the SELECT (or `none` when no row matched); the stored value is
surfaced only when truthy. -/
def obtenerHashContrasenaSqlServer (fila : Option PyVal)
    (tabla campoUsuario campoContrasena valorUsuario : String)
    (esquema : Option String) : Except PyErr (Stmt × Option String) :=
  if esVacia tabla then
    .error (.valueError "El nombre de la tabla no puede estar vacío")
  else if esVacia campoUsuario then
    .error (.valueError "El campo de usuario no puede estar vacío")
  else if esVacia campoContrasena then
    .error (.valueError "El campo de contraseña no puede estar vacío")
  else if esVacia valorUsuario then
    .error (.valueError "El valor de usuario no puede estar vacío")
  else
    let esquemaFinal := esquemaFinalSqlServer esquema
    let sqlTexto := "SELECT [" ++ campoContrasena ++ "] FROM [" ++
      esquemaFinal ++ "].[" ++ tabla ++ "] WHERE [" ++ campoUsuario ++
      "] = :valor_usuario"
    let res :=
      match fila with
      | some v => if pyTruthy v then some (pyStr v) else none
      | none => none
    .ok ({ sql := sqlTexto, params := [("valor_usuario", .vStr valorUsuario)] }, res)

/-! ## `RepositorioLecturaPostgreSQL` -/

/-- `_detectar_tipo_columna` (PostgreSQL): the catalog query selects
`data_type, udt_name` but only `row[0]` (data_type) is used, lower-cased;
`None` when no row matches or on any lookup failure. -/
def detectarTipoColumnaPg (cat : Catalogo3) (tabla esquema columna : String) :
    Option String :=
  match cat esquema tabla columna with
  | .ok (some t) => some (pyToLower t)
  | .ok none => none
  | .error _ => none

/-- `(esquema or "public").strip()`. -/
def esquemaFinalPg (esquema : Option String) : String :=
  pyStrip (pyOrStr esquema "public")

/-- The per-field `valores` loop of `crear`/`actualizar` (PostgreSQL). -/
def convertirEntradaPg (cat : Catalogo3) (tabla esquemaFinal : String) :
    (String × PyVal) → Except PyErr (String × PyVal)
  | (k, .vStr s) =>
    (convertirValorPostgres s
      (detectarTipoColumnaPg cat tabla esquemaFinal k)).map (fun w => (k, w))
  | (k, w) => .ok (k, w)

def construirValoresPg (cat : Catalogo3) (tabla esquemaFinal : String)
    (datosFinales : List (String × PyVal)) :
    Except PyErr (List (String × PyVal)) :=
  mapMExcept (convertirEntradaPg cat tabla esquemaFinal) datosFinales

/-- `obtener_filas` (PostgreSQL), up to the issued statement. -/
def obtenerFilasPg (tabla : String) (esquema : Option String)
    (limite : Option Int) : Except PyErr Stmt :=
  if esVacia tabla then
    .error (.valueError "El nombre de la tabla no puede estar vacío")
  else
    let esquemaFinal := esquemaFinalPg esquema
    let limiteFinal := pyOrInt limite 1000
    .ok { sql := "SELECT * FROM \"" ++ esquemaFinal ++ "\".\"" ++ tabla ++
            "\" LIMIT :limite",
          params := [("limite", .vInt limiteFinal)] }

/-- `obtener_por_clave` (PostgreSQL): a timestamp column filtered with a
date-only value compares `CAST(col AS DATE)`. -/
def obtenerPorClavePg (cat : Catalogo3) (tabla clave valor : String)
    (esquema : Option String) : Except PyErr Stmt :=
  if esVacia tabla then
    .error (.valueError "El nombre de la tabla no puede estar vacío")
  else if esVacia clave then
    .error (.valueError "El nombre de la clave no puede estar vacío")
  else if esVacia valor then
    .error (.valueError "El valor no puede estar vacío")
  else
    let esquemaFinal := esquemaFinalPg esquema
    let tipoColumna := detectarTipoColumnaPg cat tabla esquemaFinal clave
    let cuerpo : Except PyErr Stmt :=
      if (tipoColumna == some "timestamp without time zone" ||
          tipoColumna == some "timestamp with time zone") &&
         esFechaSinHora valor then
        match extraerSoloFecha valor with
        | .ok d =>
          .ok { sql := "SELECT * FROM \"" ++ esquemaFinal ++ "\".\"" ++ tabla ++
                  "\" WHERE CAST(\"" ++ clave ++ "\" AS DATE) = :valor",
                params := [("valor", .vDate d)] }
        | .error e => .error e
      else
        match convertirValorPostgres valor tipoColumna with
        | .ok w =>
          .ok { sql := "SELECT * FROM \"" ++ esquemaFinal ++ "\".\"" ++ tabla ++
                  "\" WHERE \"" ++ clave ++ "\" = :valor",
                params := [("valor", w)] }
        | .error e => .error e
    match cuerpo with
    | .ok st => .ok st
    | .error e =>
      .error (.runtimeError ("Error PostgreSQL al filtrar " ++ esquemaFinal ++
        "." ++ tabla ++ ": " ++ errText e))

/-- The part of `crear` (PostgreSQL) after `datos_finales` is ready. -/
def crearPgDesde (cat : Catalogo3) (tabla esquemaFinal : String)
    (datosFinales : List (String × PyVal)) : Except PyErr Stmt :=
  let columnas := String.intercalate ", "
    (datosFinales.map (fun kv => "\"" ++ kv.1 ++ "\""))
  let parametros := String.intercalate ", "
    (datosFinales.map (fun kv => ":" ++ kv.1))
  let sqlTexto := "INSERT INTO \"" ++ esquemaFinal ++ "\".\"" ++ tabla ++
    "\" (" ++ columnas ++ ") VALUES (" ++ parametros ++ ")"
  match construirValoresPg cat tabla esquemaFinal datosFinales with
  | .ok valores => .ok { sql := sqlTexto, params := valores }
  | .error e =>
    .error (.runtimeError ("Error PostgreSQL al insertar en " ++
      esquemaFinal ++ "." ++ tabla ++ ": " ++ errText e))

/-- `crear` (PostgreSQL), up to the issued INSERT. -/
def crearPg (hashpw : String → String) (cat : Catalogo3)
    (tabla : String) (datos : List (String × PyVal)) (esquema : Option String)
    (camposEncriptar : Option String) : Except PyErr Stmt :=
  if esVacia tabla then
    .error (.valueError "El nombre de la tabla no puede estar vacío")
  else if datos == [] then
    .error (.valueError "Los datos no pueden estar vacíos")
  else
    let esquemaFinal := esquemaFinalPg esquema
    match prepararEncriptacion hashpw datos camposEncriptar with
    | .error e => .error e
    | .ok datosFinales => crearPgDesde cat tabla esquemaFinal datosFinales

/-- The part of `actualizar` (PostgreSQL) after `datos_finales` is ready. -/
def actualizarPgDesde (cat : Catalogo3)
    (tabla clave valorClave esquemaFinal : String)
    (datosFinales : List (String × PyVal)) : Except PyErr Stmt :=
  let clausulaSet := String.intercalate ", "
    (datosFinales.map (fun kv => "\"" ++ kv.1 ++ "\" = :" ++ kv.1))
  let sqlTexto := "UPDATE \"" ++ esquemaFinal ++ "\".\"" ++ tabla ++
    "\" SET " ++ clausulaSet ++ " WHERE \"" ++ clave ++ "\" = :valor_clave"
  let cuerpo : Except PyErr Stmt :=
    match construirValoresPg cat tabla esquemaFinal datosFinales with
    | .error e => .error e
    | .ok valores =>
      let tipoClave := detectarTipoColumnaPg cat tabla esquemaFinal clave
      match convertirValorPostgres valorClave tipoClave with
      | .error e => .error e
      | .ok w => .ok { sql := sqlTexto, params := pyDictSet valores "valor_clave" w }
  match cuerpo with
  | .ok st => .ok st
  | .error e =>
    .error (.runtimeError ("Error PostgreSQL al actualizar " ++
      esquemaFinal ++ "." ++ tabla ++ ": " ++ errText e))

/-- `actualizar` (PostgreSQL): per-field coercion, then key-type detection
and key coercion before binding `valor_clave`. -/
def actualizarPg (hashpw : String → String) (cat : Catalogo3)
    (tabla clave valorClave : String) (datos : List (String × PyVal))
    (esquema : Option String) (camposEncriptar : Option String) :
    Except PyErr Stmt :=
  if esVacia tabla then
    .error (.valueError "El nombre de la tabla no puede estar vacío")
  else if esVacia clave then
    .error (.valueError "El nombre de la clave no puede estar vacío")
  else if esVacia valorClave then
    .error (.valueError "El valor de la clave no puede estar vacío")
  else if datos == [] then
    .error (.valueError "Los datos no pueden estar vacíos")
  else
    let esquemaFinal := esquemaFinalPg esquema
    match prepararEncriptacion hashpw datos camposEncriptar with
    | .error e => .error e
    | .ok datosFinales =>
      actualizarPgDesde cat tabla clave valorClave esquemaFinal datosFinales

/-- `eliminar` (PostgreSQL): key-type detection and key coercion before
binding `valor_clave`. -/
def eliminarPg (cat : Catalogo3) (tabla clave valorClave : String)
    (esquema : Option String) : Except PyErr Stmt :=
  if esVacia tabla then
    .error (.valueError "El nombre de la tabla no puede estar vacío")
  else if esVacia clave then
    .error (.valueError "El nombre de la clave no puede estar vacío")
  else if esVacia valorClave then
    .error (.valueError "El valor de la clave no puede estar vacío")
  else
    let esquemaFinal := esquemaFinalPg esquema
    let sqlTexto := "DELETE FROM \"" ++ esquemaFinal ++ "\".\"" ++ tabla ++
      "\" WHERE \"" ++ clave ++ "\" = :valor_clave"
    let tipoClave := detectarTipoColumnaPg cat tabla esquemaFinal clave
    match convertirValorPostgres valorClave tipoClave with
    | .ok w => .ok { sql := sqlTexto, params := [("valor_clave", w)] }
    | .error e =>
      .error (.runtimeError ("Error PostgreSQL al eliminar de " ++
        esquemaFinal ++ "." ++ tabla ++ ": " ++ errText e))

/-- `obtener_hash_contrasena` (PostgreSQL). -/
def obtenerHashContrasenaPg (fila : Option PyVal)
    (tabla campoUsuario campoContrasena valorUsuario : String)
    (esquema : Option String) : Except PyErr (Stmt × Option String) :=
  if esVacia tabla then
    .error (.valueError "El nombre de la tabla no puede estar vacío")
  else if esVacia campoUsuario then
    .error (.valueError "El campo de usuario no puede estar vacío")
  else if esVacia campoContrasena then
    .error (.valueError "El campo de contraseña no puede estar vacío")
  else if esVacia valorUsuario then
    .error (.valueError "El valor de usuario no puede estar vacío")
  else
    let esquemaFinal := esquemaFinalPg esquema
    let sqlTexto := "SELECT \"" ++ campoContrasena ++ "\" FROM \"" ++
      esquemaFinal ++ "\".\"" ++ tabla ++ "\" WHERE \"" ++ campoUsuario ++
      "\" = :valor_usuario"
    let res :=
      match fila with
      | some v => if pyTruthy v then some (pyStr v) else none
      | none => none
    .ok ({ sql := sqlTexto, params := [("valor_usuario", .vStr valorUsuario)] }, res)

/-! ## `RepositorioLecturaMysqlMariaDB` -/

/-- `_detectar_tipo_columna` (MySQL/MariaDB): the catalog query filters by
`DATABASE()` rather than an explicit schema. -/
def detectarTipoColumnaMysql (cat : Catalogo2) (tabla columna : String) :
    Option String :=
  match cat tabla columna with
  | .ok (some t) => some (pyToLower t)
  | .ok none => none
  | .error _ => none

/-- The schema prefix: backtick-quoted with a trailing dot when a truthy
schema is supplied, empty otherwise. -/
def prefijoEsquemaMysql (esquema : Option String) : String :=
  match esquema with
  | some e => if e == "" then "" else "`" ++ e ++ "`."
  | none => ""

/-- The per-field `valores` loop of `crear`/`actualizar` (MySQL/MariaDB):
parameter names carry a `p_` prefix. -/
def convertirEntradaMysql (cat : Catalogo2) (tabla : String) :
    (String × PyVal) → Except PyErr (String × PyVal)
  | (k, .vStr s) =>
    (convertirValorMysql s (detectarTipoColumnaMysql cat tabla k)).map
      (fun w => ("p_" ++ k, w))
  | (k, w) => .ok ("p_" ++ k, w)

def construirValoresMysql (cat : Catalogo2) (tabla : String)
    (datosFinales : List (String × PyVal)) :
    Except PyErr (List (String × PyVal)) :=
  mapMExcept (convertirEntradaMysql cat tabla) datosFinales

/-- `obtener_filas` (MySQL/MariaDB), up to the issued statement. -/
def obtenerFilasMysql (tabla : String) (esquema : Option String)
    (limite : Option Int) : Except PyErr Stmt :=
  if esVacia tabla then
    .error (.valueError "El nombre de la tabla no puede estar vacío")
  else
    let limiteFinal := pyOrInt limite 1000
    let prefijo := prefijoEsquemaMysql esquema
    .ok { sql := "SELECT * FROM " ++ prefijo ++ "`" ++ tabla ++ "` LIMIT :limite",
          params := [("limite", .vInt limiteFinal)] }

/-- `obtener_por_clave` (MySQL/MariaDB): a `datetime`/`timestamp` column
filtered with a date-only value compares `DATE(col)`. -/
def obtenerPorClaveMysql (cat : Catalogo2) (tabla clave valor : String)
    (esquema : Option String) : Except PyErr Stmt :=
  if esVacia tabla then
    .error (.valueError "El nombre de la tabla no puede estar vacío")
  else if esVacia clave then
    .error (.valueError "El nombre de la clave no puede estar vacío")
  else if esVacia valor then
    .error (.valueError "El valor no puede estar vacío")
  else
    let prefijo := prefijoEsquemaMysql esquema
    let tipoColumna := detectarTipoColumnaMysql cat tabla clave
    let cuerpo : Except PyErr Stmt :=
      if (tipoColumna == some "datetime" || tipoColumna == some "timestamp") &&
         esFechaSinHora valor then
        match extraerSoloFecha valor with
        | .ok d =>
          .ok { sql := "SELECT * FROM " ++ prefijo ++ "`" ++ tabla ++
                  "` WHERE DATE(`" ++ clave ++ "`) = :valor",
                params := [("valor", .vDate d)] }
        | .error e => .error e
      else
        match convertirValorMysql valor tipoColumna with
        | .ok w =>
          .ok { sql := "SELECT * FROM " ++ prefijo ++ "`" ++ tabla ++
                  "` WHERE `" ++ clave ++ "` = :valor",
                params := [("valor", w)] }
        | .error e => .error e
    match cuerpo with
    | .ok st => .ok st
    | .error e =>
      .error (.runtimeError ("Error MySQL/MariaDB al filtrar " ++ tabla ++
        ": " ++ errText e))

/-- The part of `crear` (MySQL/MariaDB) after `datos_finales` is ready. -/
def crearMysqlDesde (cat : Catalogo2) (tabla prefijo : String)
    (datosFinales : List (String × PyVal)) : Except PyErr Stmt :=
  let columnas := String.intercalate ", "
    (datosFinales.map (fun kv => "`" ++ kv.1 ++ "`"))
  let parametros := String.intercalate ", "
    (datosFinales.map (fun kv => ":p_" ++ kv.1))
  let sqlTexto := "INSERT INTO " ++ prefijo ++ "`" ++ tabla ++ "` (" ++
    columnas ++ ") VALUES (" ++ parametros ++ ")"
  match construirValoresMysql cat tabla datosFinales with
  | .ok valores => .ok { sql := sqlTexto, params := valores }
  | .error e =>
    .error (.runtimeError ("Error MySQL/MariaDB al insertar en " ++
      tabla ++ ": " ++ errText e))

/-- `crear` (MySQL/MariaDB), up to the issued INSERT. -/
def crearMysql (hashpw : String → String) (cat : Catalogo2)
    (tabla : String) (datos : List (String × PyVal)) (esquema : Option String)
    (camposEncriptar : Option String) : Except PyErr Stmt :=
  if esVacia tabla then
    .error (.valueError "El nombre de la tabla no puede estar vacío")
  else if datos == [] then
    .error (.valueError "Los datos no pueden estar vacíos")
  else
    let prefijo := prefijoEsquemaMysql esquema
    match prepararEncriptacion hashpw datos camposEncriptar with
    | .error e => .error e
    | .ok datosFinales => crearMysqlDesde cat tabla prefijo datosFinales

/-- The part of `actualizar` (MySQL/MariaDB) after `datos_finales` is
ready: note `valores["valor_clave"] = valor_clave` binds the raw string. -/
def actualizarMysqlDesde (cat : Catalogo2)
    (tabla clave valorClave prefijo : String)
    (datosFinales : List (String × PyVal)) : Except PyErr Stmt :=
  let clausulaSet := String.intercalate ", "
    (datosFinales.map (fun kv => "`" ++ kv.1 ++ "` = :p_" ++ kv.1))
  let sqlTexto := "UPDATE " ++ prefijo ++ "`" ++ tabla ++ "` SET " ++
    clausulaSet ++ " WHERE `" ++ clave ++ "` = :valor_clave"
  match construirValoresMysql cat tabla datosFinales with
  | .ok valores =>
    .ok { sql := sqlTexto,
          params := pyDictSet valores "valor_clave" (.vStr valorClave) }
  | .error e =>
    .error (.runtimeError ("Error MySQL/MariaDB al actualizar " ++
      tabla ++ ": " ++ errText e))

/-- `actualizar` (MySQL/MariaDB): per-field coercion for the SET values but
the key value is bound RAW --- `valores["valor_clave"] = valor_clave` with no
type detection and no coercion. -/
def actualizarMysql (hashpw : String → String) (cat : Catalogo2)
    (tabla clave valorClave : String) (datos : List (String × PyVal))
    (esquema : Option String) (camposEncriptar : Option String) :
    Except PyErr Stmt :=
  if esVacia tabla then
    .error (.valueError "El nombre de la tabla no puede estar vacío")
  else if esVacia clave then
    .error (.valueError "El nombre de la clave no puede estar vacío")
  else if esVacia valorClave then
    .error (.valueError "El valor de la clave no puede estar vacío")
  else if datos == [] then
    .error (.valueError "Los datos no pueden estar vacíos")
  else
    let prefijo := prefijoEsquemaMysql esquema
    match prepararEncriptacion hashpw datos camposEncriptar with
    | .error e => .error e
    | .ok datosFinales =>
      actualizarMysqlDesde cat tabla clave valorClave prefijo datosFinales

/-- `eliminar` (MySQL/MariaDB): no type detection at all --- the raw key
string is bound as `valor_clave`. -/
def eliminarMysql (tabla clave valorClave : String)
    (esquema : Option String) : Except PyErr Stmt :=
  if esVacia tabla then
    .error (.valueError "El nombre de la tabla no puede estar vacío")
  else if esVacia clave then
    .error (.valueError "El nombre de la clave no puede estar vacío")
  else if esVacia valorClave then
    .error (.valueError "El valor de la clave no puede estar vacío")
  else
    let prefijo := prefijoEsquemaMysql esquema
    .ok { sql := "DELETE FROM " ++ prefijo ++ "`" ++ tabla ++
            "` WHERE `" ++ clave ++ "` = :valor_clave",
          params := [("valor_clave", .vStr valorClave)] }

/-- `obtener_hash_contrasena` (MySQL/MariaDB). -/
def obtenerHashContrasenaMysql (fila : Option PyVal)
    (tabla campoUsuario campoContrasena valorUsuario : String)
    (esquema : Option String) : Except PyErr (Stmt × Option String) :=
  if esVacia tabla then
    .error (.valueError "El nombre de la tabla no puede estar vacío")
  else if esVacia campoUsuario then
    .error (.valueError "El campo de usuario no puede estar vacío")
  else if esVacia campoContrasena then
    .error (.valueError "El campo de contraseña no puede estar vacío")
  else if esVacia valorUsuario then
    .error (.valueError "El valor de usuario no puede estar vacío")
  else
    let prefijo := prefijoEsquemaMysql esquema
    let sqlTexto := "SELECT `" ++ campoContrasena ++ "` FROM " ++ prefijo ++
      "`" ++ tabla ++ "` WHERE `" ++ campoUsuario ++
      "` = :valor_usuario LIMIT 1"
    let res :=
      match fila with
      | some v => if pyTruthy v then some (pyStr v) else none
      | none => none
    .ok ({ sql := sqlTexto, params := [("valor_usuario", .vStr valorUsuario)] }, res)

/-! ## `ServicioCrud` -/

/-- `esquema.strip() if esquema and esquema.strip() else None`. -/
def esquemaNorm (esquema : Option String) : Option String :=
  match esquema with
  | some e => if e ≠ "" && pyStrip e ≠ "" then some (pyStrip e) else none
  | none => none

/-- `limite if limite and limite > 0 else None`. -/
def limiteNorm (limite : Option Int) : Option Int :=
  match limite with
  | some n => if n ≠ 0 && n > 0 then some n else none
  | none => none

/-- `ServicioCrud.listar` wired to the SQL Server repository. -/
def listarSqlServer (tabla : String) (esquema : Option String)
    (limite : Option Int) : Except PyErr Stmt :=
  if esVacia tabla then
    .error (.valueError "El nombre de la tabla no puede estar vacío.")
  else obtenerFilasSqlServer tabla (esquemaNorm esquema) (limiteNorm limite)

/-- `ServicioCrud.listar` wired to the PostgreSQL repository. -/
def listarPg (tabla : String) (esquema : Option String)
    (limite : Option Int) : Except PyErr Stmt :=
  if esVacia tabla then
    .error (.valueError "El nombre de la tabla no puede estar vacío.")
  else obtenerFilasPg tabla (esquemaNorm esquema) (limiteNorm limite)

/-- `ServicioCrud.listar` wired to the MySQL/MariaDB repository. -/
def listarMysql (tabla : String) (esquema : Option String)
    (limite : Option Int) : Except PyErr Stmt :=
  if esVacia tabla then
    .error (.valueError "El nombre de la tabla no puede estar vacío.")
  else obtenerFilasMysql tabla (esquemaNorm esquema) (limiteNorm limite)

/-- `ServicioCrud.verificar_contrasena`, generic over the repository hash
lookup: five validations, the fetch, then 404 / 200 / 401. -/
def verificarContrasenaSvc
    (repoHash : String → String → String → String → Option String →
      Except PyErr (Option String))
    (checkpw : String → String → Bool)
    (tabla campoUsuario campoContrasena valorUsuario valorContrasena : String)
    (esquema : Option String) : Except PyErr (Int × String) :=
  if esVacia tabla then
    .error (.valueError "El nombre de la tabla no puede estar vacío.")
  else if esVacia campoUsuario then
    .error (.valueError "El campo de usuario no puede estar vacío.")
  else if esVacia campoContrasena then
    .error (.valueError "El campo de contraseña no puede estar vacío.")
  else if esVacia valorUsuario then
    .error (.valueError "El usuario no puede estar vacío.")
  else if esVacia valorContrasena then
    .error (.valueError "La contraseña no puede estar vacía.")
  else
    match repoHash tabla campoUsuario campoContrasena valorUsuario
        (esquemaNorm esquema) with
    | .error e => .error e
    | .ok none => .ok (404, "Usuario no encontrado.")
    | .ok (some h) =>
      match verificarM checkpw valorContrasena h with
      | .error e => .error e
      | .ok true => .ok (200, "Contraseña válida.")
      | .ok false => .ok (401, "Contraseña incorrecta.")

/-- `verificar_contrasena` composed with the SQL Server hash lookup, the
first fetched cell being `fila`. -/
def verificarContrasenaSqlServer (fila : Option PyVal)
    (checkpw : String → String → Bool)
    (tabla campoUsuario campoContrasena valorUsuario valorContrasena : String)
    (esquema : Option String) : Except PyErr (Int × String) :=
  verificarContrasenaSvc
    (fun t cu cc vu esq =>
      (obtenerHashContrasenaSqlServer fila t cu cc vu esq).map (fun r => r.2))
    checkpw tabla campoUsuario campoContrasena valorUsuario valorContrasena esquema

/-! ## Heap model of the payload handling

Python dictionaries are mutable references.  To make the frame property
visible (`crear`/`actualizar` must not mutate the caller's payload dict),
the dict store is modelled as a heap of dictionaries addressed by index.
`datos_finales = dict(datos)` allocates a fresh copy at a fresh address; the
encryption loop assigns into that copy; the rest of each operation only
reads.  The heap wrappers below run the write operations against this store.
-/

/-- The mutable store: dictionaries addressed by index. -/
abbrev Heap := List (List (String × PyVal))

/-- Read the dictionary at an address. -/
def heapGet (h : Heap) (a : Nat) : List (String × PyVal) := h.getD a []

/-- Overwrite the dictionary at an address. -/
def heapSet (h : Heap) (a : Nat) (d : List (String × PyVal)) : Heap :=
  h.set a d

/-- One iteration of the encryption loop, mutating the dict at `aF`:
`if campo.lower() in campos_a_encriptar and datos_finales[campo]:
datos_finales[campo] = encriptar(str(datos_finales[campo]))`.  The store is
returned in every case: a `ValueError` raised by `encriptar` happens before
the assignment, so on the error the store is handed back unchanged, exactly
as it stays observable in Python when the exception propagates. -/
def pasoEncriptarHeap (hashpw : String → String) (conjunto : List String)
    (h : Heap) (aF : Nat) (campo : String) : Heap × Except PyErr Unit :=
  match (heapGet h aF).lookup campo with
  | none => (h, .ok ())
  | some v =>
    if conjunto.contains (pyToLower campo) && pyTruthy v then
      match encriptarM hashpw (pyStr v) with
      | .ok cifrado =>
        (heapSet h aF (pyDictSet (heapGet h aF) campo (.vStr cifrado)), .ok ())
      | .error e => (h, .error e)
    else (h, .ok ())

/-- The encryption loop over the snapshot `list(datos_finales.keys())`.
The store is threaded through failures as well: an exception propagating
out of the loop leaves the assignments already performed in place. -/
def buclePorCampos (hashpw : String → String) (conjunto : List String) :
    List String → Heap → Nat → Heap × Except PyErr Unit
  | [], h, _ => (h, .ok ())
  | campo :: resto, h, aF =>
    match pasoEncriptarHeap hashpw conjunto h aF campo with
    | (h2, .ok _u) => buclePorCampos hashpw conjunto resto h2 aF
    | (h2, .error e) => (h2, .error e)

/-- `datos_finales = dict(datos)` plus the conditional encryption loop, in
the heap model: allocate a copy of the dict at `aDatos` at the fresh address
`h.length`, then mutate only the copy.  On success the address of the copy
is returned; on an encryption exception the partially mutated store is
still returned, exactly as Python leaves it observable after the raise. -/
def prepararDatosFinalesHeap (hashpw : String → String) (h : Heap)
    (aDatos : Nat) : Option String → Heap × Except PyErr Nat
  | none => (h ++ [heapGet h aDatos], .ok h.length)
  | some cs =>
    if cs == "" then (h ++ [heapGet h aDatos], .ok h.length)
    else
      match buclePorCampos hashpw (camposAEncriptar cs)
          ((heapGet h aDatos).map (fun kv => kv.1)) (h ++ [heapGet h aDatos])
          h.length with
      | (h2, .ok _u) => (h2, .ok h.length)
      | (h2, .error e) => (h2, .error e)

/-- `crear` (SQL Server) against the heap store: the caller's payload lives
at address `aDatos`.  The store is the first component of the result in
every case, so the state after a raised exception stays observable. -/
def crearSqlServerHeap (hashpw : String → String) (cat : Catalogo3)
    (h : Heap) (aDatos : Nat) (tabla : String) (esquema : Option String)
    (camposEncriptar : Option String) : Heap × Except PyErr Stmt :=
  if esVacia tabla then
    (h, .error (.valueError "El nombre de la tabla no puede estar vacío"))
  else if heapGet h aDatos == [] then
    (h, .error (.valueError "Los datos no pueden estar vacíos"))
  else
    match prepararDatosFinalesHeap hashpw h aDatos camposEncriptar with
    | (h2, .error e) => (h2, .error e)
    | (h2, .ok aF) =>
      match crearSqlServerDesde cat tabla (esquemaFinalSqlServer esquema)
          (heapGet h2 aF) with
      | .ok st => (h2, .ok st)
      | .error e => (h2, .error e)

/-- `actualizar` (SQL Server) against the heap store; the store is returned
in every case, also alongside a raised exception. -/
def actualizarSqlServerHeap (hashpw : String → String) (cat : Catalogo3)
    (h : Heap) (aDatos : Nat) (tabla clave valorClave : String)
    (esquema : Option String) (camposEncriptar : Option String) :
    Heap × Except PyErr Stmt :=
  if esVacia tabla then
    (h, .error (.valueError "El nombre de la tabla no puede estar vacío"))
  else if esVacia clave then
    (h, .error (.valueError "El nombre de la clave no puede estar vacío"))
  else if esVacia valorClave then
    (h, .error (.valueError "El valor de la clave no puede estar vacío"))
  else if heapGet h aDatos == [] then
    (h, .error (.valueError "Los datos no pueden estar vacíos"))
  else
    match prepararDatosFinalesHeap hashpw h aDatos camposEncriptar with
    | (h2, .error e) => (h2, .error e)
    | (h2, .ok aF) =>
      match actualizarSqlServerDesde cat tabla clave valorClave
          (esquemaFinalSqlServer esquema) (heapGet h2 aF) with
      | .ok st => (h2, .ok st)
      | .error e => (h2, .error e)

/-- `crear` (PostgreSQL) against the heap store; the store is returned in
every case, also alongside a raised exception. -/
def crearPgHeap (hashpw : String → String) (cat : Catalogo3)
    (h : Heap) (aDatos : Nat) (tabla : String) (esquema : Option String)
    (camposEncriptar : Option String) : Heap × Except PyErr Stmt :=
  if esVacia tabla then
    (h, .error (.valueError "El nombre de la tabla no puede estar vacío"))
  else if heapGet h aDatos == [] then
    (h, .error (.valueError "Los datos no pueden estar vacíos"))
  else
    match prepararDatosFinalesHeap hashpw h aDatos camposEncriptar with
    | (h2, .error e) => (h2, .error e)
    | (h2, .ok aF) =>
      match crearPgDesde cat tabla (esquemaFinalPg esquema) (heapGet h2 aF) with
      | .ok st => (h2, .ok st)
      | .error e => (h2, .error e)

/-- `actualizar` (PostgreSQL) against the heap store; the store is returned
in every case, also alongside a raised exception. -/
def actualizarPgHeap (hashpw : String → String) (cat : Catalogo3)
    (h : Heap) (aDatos : Nat) (tabla clave valorClave : String)
    (esquema : Option String) (camposEncriptar : Option String) :
    Heap × Except PyErr Stmt :=
  if esVacia tabla then
    (h, .error (.valueError "El nombre de la tabla no puede estar vacío"))
  else if esVacia clave then
    (h, .error (.valueError "El nombre de la clave no puede estar vacío"))
  else if esVacia valorClave then
    (h, .error (.valueError "El valor de la clave no puede estar vacío"))
  else if heapGet h aDatos == [] then
    (h, .error (.valueError "Los datos no pueden estar vacíos"))
  else
    match prepararDatosFinalesHeap hashpw h aDatos camposEncriptar with
    | (h2, .error e) => (h2, .error e)
    | (h2, .ok aF) =>
      match actualizarPgDesde cat tabla clave valorClave (esquemaFinalPg esquema)
          (heapGet h2 aF) with
      | .ok st => (h2, .ok st)
      | .error e => (h2, .error e)

/-- `crear` (MySQL/MariaDB) against the heap store; the store is returned
in every case, also alongside a raised exception. -/
def crearMysqlHeap (hashpw : String → String) (cat : Catalogo2)
    (h : Heap) (aDatos : Nat) (tabla : String) (esquema : Option String)
    (camposEncriptar : Option String) : Heap × Except PyErr Stmt :=
  if esVacia tabla then
    (h, .error (.valueError "El nombre de la tabla no puede estar vacío"))
  else if heapGet h aDatos == [] then
    (h, .error (.valueError "Los datos no pueden estar vacíos"))
  else
    match prepararDatosFinalesHeap hashpw h aDatos camposEncriptar with
    | (h2, .error e) => (h2, .error e)
    | (h2, .ok aF) =>
      match crearMysqlDesde cat tabla (prefijoEsquemaMysql esquema)
          (heapGet h2 aF) with
      | .ok st => (h2, .ok st)
      | .error e => (h2, .error e)

/-- `actualizar` (MySQL/MariaDB) against the heap store; the store is
returned in every case, also alongside a raised exception. -/
def actualizarMysqlHeap (hashpw : String → String) (cat : Catalogo2)
    (h : Heap) (aDatos : Nat) (tabla clave valorClave : String)
    (esquema : Option String) (camposEncriptar : Option String) :
    Heap × Except PyErr Stmt :=
  if esVacia tabla then
    (h, .error (.valueError "El nombre de la tabla no puede estar vacío"))
  else if esVacia clave then
    (h, .error (.valueError "El nombre de la clave no puede estar vacío"))
  else if esVacia valorClave then
    (h, .error (.valueError "El valor de la clave no puede estar vacío"))
  else if heapGet h aDatos == [] then
    (h, .error (.valueError "Los datos no pueden estar vacíos"))
  else
    match prepararDatosFinalesHeap hashpw h aDatos camposEncriptar with
    | (h2, .error e) => (h2, .error e)
    | (h2, .ok aF) =>
      match actualizarMysqlDesde cat tabla clave valorClave
          (prefijoEsquemaMysql esquema) (heapGet h2 aF) with
      | .ok st => (h2, .ok st)
      | .error e => (h2, .error e)

/-! ## Auxiliary lemmas -/

theorem dVal_dChar {n : Nat} (h : n < 10) : dVal (dChar n) = n := by
  interval_cases n <;> rfl

theorem isDigit_dChar {n : Nat} (h : n < 10) : (dChar n).isDigit = true := by
  interval_cases n <;> rfl

theorem dChar_beq_guion {n : Nat} (h : n < 10) : (dChar n == '-') = false := by
  interval_cases n <;> rfl

theorem tee_beq_dChar {n : Nat} (h : n < 10) : (('T' : Char) == dChar n) = false := by
  interval_cases n <;> rfl

theorem isWhitespace_dChar {n : Nat} (h : n < 10) :
    (dChar n).isWhitespace = false := by
  interval_cases n <;> rfl

theorem dateIso_data (y m d : Nat) :
    (dateIso ⟨y, m, d⟩).data =
      [dChar (y / 1000 % 10), dChar (y / 100 % 10), dChar (y / 10 % 10),
       dChar (y % 10), '-', dChar (m / 10 % 10), dChar (m % 10), '-',
       dChar (d / 10 % 10), dChar (d % 10)] := rfl

theorem dateFromIso_dateIso (y m d : Nat) (hy : y ≤ 9999) (hm : m ≤ 99)
    (hd : d ≤ 99) :
    dateFromIso (dateIso ⟨y, m, d⟩) =
      if validDate y m d then some ⟨y, m, d⟩ else none := by
  have l10 : ∀ k : Nat, k % 10 < 10 := fun k => Nat.mod_lt _ (by norm_num)
  unfold dateFromIso
  rw [dateIso_data]
  show dateFromIsoChars _ = _
  rw [dateFromIsoChars]
  rw [isDigit_dChar (l10 _), isDigit_dChar (l10 _), isDigit_dChar (l10 _),
      isDigit_dChar (l10 _), isDigit_dChar (l10 _), isDigit_dChar (l10 _),
      isDigit_dChar (l10 _), isDigit_dChar (l10 _)]
  simp only [Bool.true_and, Bool.and_true, beq_self_eq_true, if_true]
  rw [dVal_dChar (l10 _), dVal_dChar (l10 _), dVal_dChar (l10 _),
      dVal_dChar (l10 _), dVal_dChar (l10 _), dVal_dChar (l10 _),
      dVal_dChar (l10 _), dVal_dChar (l10 _)]
  have ey : y / 1000 % 10 * 1000 + y / 100 % 10 * 100 + y / 10 % 10 * 10 + y % 10 = y := by
    omega
  have em : m / 10 % 10 * 10 + m % 10 = m := by omega
  have ed : d / 10 % 10 * 10 + d % 10 = d := by omega
  rw [ey, em, ed]

theorem guion_beq_dChar {n : Nat} (h : n < 10) : (('-' : Char) == dChar n) = false := by
  interval_cases n <;> rfl

theorem esFechaSinHora_dateIso (y m d : Nat) :
    esFechaSinHora (dateIso ⟨y, m, d⟩) = true := by
  have l10 : ∀ k : Nat, k % 10 < 10 := fun k => Nat.mod_lt _ (by norm_num)
  have c1 := dChar_beq_guion (l10 (y / 1000))
  have c2 := dChar_beq_guion (l10 (y / 100))
  have c3 := dChar_beq_guion (l10 (y / 10))
  have c4 := dChar_beq_guion (l10 y)
  have c5 := dChar_beq_guion (l10 (m / 10))
  have c6 := dChar_beq_guion (l10 m)
  have c7 := dChar_beq_guion (l10 (d / 10))
  have c8 := dChar_beq_guion (l10 d)
  have b1 := guion_beq_dChar (l10 (y / 1000))
  have b2 := guion_beq_dChar (l10 (y / 100))
  have b3 := guion_beq_dChar (l10 (y / 10))
  have b4 := guion_beq_dChar (l10 y)
  have b5 := guion_beq_dChar (l10 (m / 10))
  have b6 := guion_beq_dChar (l10 m)
  have b7 := guion_beq_dChar (l10 (d / 10))
  have b8 := guion_beq_dChar (l10 d)
  have t1 := tee_beq_dChar (l10 (y / 1000))
  have t2 := tee_beq_dChar (l10 (y / 100))
  have t3 := tee_beq_dChar (l10 (y / 10))
  have t4 := tee_beq_dChar (l10 y)
  have t5 := tee_beq_dChar (l10 (m / 10))
  have t6 := tee_beq_dChar (l10 m)
  have t7 := tee_beq_dChar (l10 (d / 10))
  have t8 := tee_beq_dChar (l10 d)
  simp [esFechaSinHora, dateIso_data, String.length, List.count_cons,
    List.contains, List.elem, c1, c2, c3, c4, c5, c6, c7, c8,
    b1, b2, b3, b4, b5, b6, b7, b8, t1, t2, t3, t4, t5, t6, t7, t8]

theorem contains_T_dateIso (y m d : Nat) :
    (dateIso ⟨y, m, d⟩).data.contains 'T' = false := by
  have l10 : ∀ k : Nat, k % 10 < 10 := fun k => Nat.mod_lt _ (by norm_num)
  have t1 := tee_beq_dChar (l10 (y / 1000))
  have t2 := tee_beq_dChar (l10 (y / 100))
  have t3 := tee_beq_dChar (l10 (y / 10))
  have t4 := tee_beq_dChar (l10 y)
  have t5 := tee_beq_dChar (l10 (m / 10))
  have t6 := tee_beq_dChar (l10 m)
  have t7 := tee_beq_dChar (l10 (d / 10))
  have t8 := tee_beq_dChar (l10 d)
  simp [dateIso_data, List.contains, List.elem, t1, t2, t3, t4, t5, t6, t7, t8]

theorem extraerSoloFecha_dateIso (y m d : Nat) (hy : y ≤ 9999) (hm : m ≤ 99)
    (hd : d ≤ 99) :
    extraerSoloFecha (dateIso ⟨y, m, d⟩) =
      if validDate y m d then .ok ⟨y, m, d⟩
      else .error (.valueError "Invalid isoformat string") := by
  unfold extraerSoloFecha
  rw [contains_T_dateIso]
  rw [if_neg (by simp)]
  have ht : ({ data := List.take 10 (dateIso ⟨y, m, d⟩).data } : String) =
      dateIso ⟨y, m, d⟩ := rfl
  rw [ht, dateFromIso_dateIso y m d hy hm hd]
  by_cases hv : validDate y m d = true
  · simp [hv]
  · simp [hv]

theorem dropWhile_of_all_false {p : Char → Bool} :
    ∀ l : List Char, (∀ c ∈ l, p c = false) → l.dropWhile p = l := by
  intro l h
  cases l with
  | nil => rfl
  | cons c t => simp [List.dropWhile_cons, h c (by simp)]

theorem stripChars_of_all {p : Char → Bool} {l : List Char}
    (h : ∀ c ∈ l, p c = false) : stripChars p l = l := by
  unfold stripChars
  rw [dropWhile_of_all_false l h,
      dropWhile_of_all_false l.reverse
        (fun c hc => h c (List.mem_reverse.mp hc)),
      List.reverse_reverse]

theorem pyStrip_dateIso (y m d : Nat) :
    pyStrip (dateIso ⟨y, m, d⟩) = dateIso ⟨y, m, d⟩ := by
  have l10 : ∀ k : Nat, k % 10 < 10 := fun k => Nat.mod_lt _ (by norm_num)
  unfold pyStrip
  rw [stripChars_of_all]
  · intro c hc
    rw [dateIso_data] at hc
    simp only [List.mem_cons, List.not_mem_nil, or_false] at hc
    rcases hc with h | h | h | h | h | h | h | h | h | h <;> subst h <;>
      first
      | exact isWhitespace_dChar (l10 _)
      | rfl

theorem dateIso_ne_empty (y m d : Nat) : dateIso ⟨y, m, d⟩ ≠ "" := by
  intro h
  have := congrArg String.data h
  rw [dateIso_data] at this
  simp at this

theorem esVacia_dateIso (y m d : Nat) : esVacia (dateIso ⟨y, m, d⟩) = false := by
  unfold esVacia
  rw [pyStrip_dateIso]
  rw [beq_eq_false_iff_ne.mpr (dateIso_ne_empty y m d)]
  rfl

theorem bool_eq_false {b : Bool} (h : ¬ b = true) : b = false := by
  cases b
  · rfl
  · exact absurd rfl h

theorem lookup_cons_pos {k a : String} {b : PyVal} {t : List (String × PyVal)}
    (h : (k == a) = true) : List.lookup k ((a, b) :: t) = some b := by
  simp [List.lookup, h]

theorem lookup_cons_neg {k a : String} {b : PyVal} {t : List (String × PyVal)}
    (h : (k == a) = false) : List.lookup k ((a, b) :: t) = List.lookup k t := by
  simp [List.lookup, h]

theorem lookup_middle (pre post : List (String × PyVal)) (k : String) (v : PyVal)
    (h : ∀ kv ∈ pre, (k == kv.1) = false) :
    List.lookup k (pre ++ (k, v) :: post) = some v := by
  induction pre with
  | nil =>
    rw [List.nil_append]
    exact lookup_cons_pos (by simp)
  | cons kv t ih =>
    obtain ⟨a, b⟩ := kv
    have hk := h (a, b) (by simp)
    rw [List.cons_append, lookup_cons_neg hk]
    exact ih (fun kv2 hkv2 => h kv2 (by simp [hkv2]))

theorem lookup_map_replace (k : String) (v : PyVal) :
    ∀ l : List (String × PyVal), l.any (fun kv => kv.1 == k) = true →
    List.lookup k (l.map (fun kv => if kv.1 == k then (k, v) else kv)) = some v := by
  intro l hl
  induction l with
  | nil => simp at hl
  | cons kv t ih =>
    obtain ⟨a, b⟩ := kv
    by_cases hk : (a == k) = true
    · rw [List.map_cons, if_pos hk]
      exact lookup_cons_pos (by simp)
    · have hk2 : (a == k) = false := bool_eq_false hk
      have ht : t.any (fun kv => kv.1 == k) = true := by
        rw [List.any_cons] at hl
        simpa [hk2] using hl
      have hkk : (k == a) = false := by
        rw [beq_eq_false_iff_ne] at hk2 ⊢
        exact fun e => hk2 e.symm
      rw [List.map_cons, if_neg hk, lookup_cons_neg hkk]
      exact ih ht

theorem lookup_map_replace_other (k k2 : String) (v : PyVal)
    (h : (k2 == k) = false) :
    ∀ l : List (String × PyVal),
    List.lookup k2 (l.map (fun kv => if kv.1 == k then (k, v) else kv)) =
      List.lookup k2 l := by
  intro l
  induction l with
  | nil => rfl
  | cons kv t ih =>
    obtain ⟨a, b⟩ := kv
    by_cases hk : (a == k) = true
    · have hkeq : a = k := eq_of_beq hk
      subst hkeq
      rw [List.map_cons, if_pos hk, lookup_cons_neg h, lookup_cons_neg h]
      exact ih
    · rw [List.map_cons, if_neg hk]
      by_cases hh : (k2 == a) = true
      · rw [lookup_cons_pos hh, lookup_cons_pos hh]
      · have hh2 := bool_eq_false hh
        rw [lookup_cons_neg hh2, lookup_cons_neg hh2]
        exact ih

theorem lookup_append_single (k k2 : String) (v : PyVal)
    (h : (k2 == k) = false) :
    ∀ l : List (String × PyVal),
    List.lookup k2 (l ++ [(k, v)]) = List.lookup k2 l := by
  intro l
  induction l with
  | nil =>
    rw [List.nil_append, lookup_cons_neg h]
  | cons kv t ih =>
    obtain ⟨a, b⟩ := kv
    by_cases hh : (k2 == a) = true
    · rw [List.cons_append, lookup_cons_pos hh, lookup_cons_pos hh]
    · have hh2 := bool_eq_false hh
      rw [List.cons_append, lookup_cons_neg hh2, lookup_cons_neg hh2]
      exact ih

theorem lookup_pyDictSet_self (l : List (String × PyVal)) (k : String) (v : PyVal) :
    List.lookup k (pyDictSet l k v) = some v := by
  unfold pyDictSet
  by_cases hany : l.any (fun kv => kv.1 == k) = true
  · rw [if_pos hany]
    exact lookup_map_replace k v l hany
  · rw [if_neg hany]
    apply lookup_middle l [] k v
    intro kv hkv
    have hfalse : (kv.1 == k) = false := by
      apply bool_eq_false
      intro hcon
      exact hany (List.any_eq_true.mpr ⟨kv, hkv, hcon⟩)
    rw [beq_eq_false_iff_ne] at hfalse ⊢
    exact fun e => hfalse e.symm

theorem lookup_pyDictSet_other (l : List (String × PyVal)) (k k2 : String)
    (v : PyVal) (h : (k2 == k) = false) :
    List.lookup k2 (pyDictSet l k v) = List.lookup k2 l := by
  unfold pyDictSet
  by_cases hany : l.any (fun kv => kv.1 == k) = true
  · rw [if_pos hany]
    exact lookup_map_replace_other k k2 v h l
  · rw [if_neg hany]
    exact lookup_append_single k k2 v h l

theorem mapMExcept_cons_ok {α β : Type} {f : α → Except PyErr β} {x : α}
    {l : List α} {res : List β}
    (h : mapMExcept f (x :: l) = .ok res) :
    ∃ y r, f x = .ok y ∧ mapMExcept f l = .ok r ∧ res = y :: r := by
  unfold mapMExcept at h
  cases hf : f x with
  | error e => rw [hf] at h; simp at h
  | ok y =>
    rw [hf] at h
    cases hr : mapMExcept f l with
    | error e => rw [hr] at h; simp at h
    | ok r =>
      rw [hr] at h
      refine ⟨y, r, rfl, rfl, ?_⟩
      injection h with h2
      exact h2.symm

theorem mapMExcept_append_ok {α β : Type} {f : α → Except PyErr β} :
    ∀ {l1 l2 : List α} {res : List β},
    mapMExcept f (l1 ++ l2) = .ok res →
    ∃ r1 r2, mapMExcept f l1 = .ok r1 ∧ mapMExcept f l2 = .ok r2 ∧
      res = r1 ++ r2 := by
  intro l1
  induction l1 with
  | nil => exact fun h => ⟨[], _, rfl, h, rfl⟩
  | cons x t ih =>
    intro l2 res h
    rw [List.cons_append] at h
    obtain ⟨y, r, hf, hrest, hres⟩ := mapMExcept_cons_ok h
    obtain ⟨r1, r2, h1, h2, hr⟩ := ih hrest
    refine ⟨y :: r1, r2, ?_, h2, ?_⟩
    · unfold mapMExcept
      rw [hf, h1]
    · subst hres hr
      simp

theorem mapMExcept_keys (g : String → String)
    {f : (String × PyVal) → Except PyErr (String × PyVal)}
    (hf : ∀ kv w, f kv = .ok w → w.1 = g kv.1) :
    ∀ {l res}, mapMExcept f l = .ok res →
    res.map Prod.fst = l.map (fun kv => g kv.1) := by
  intro l
  induction l with
  | nil =>
    intro res h
    unfold mapMExcept at h
    injection h with h2
    subst h2
    rfl
  | cons kv t ih =>
    intro res h
    obtain ⟨y, r, hfx, hrest, hres⟩ := mapMExcept_cons_ok h
    subst hres
    simp [hf kv y hfx, ih hrest]

theorem heapGet_heapSet_ne {h : Heap} {a b : Nat} {d : List (String × PyVal)}
    (hab : b ≠ a) : heapGet (heapSet h a d) b = heapGet h b := by
  unfold heapGet heapSet
  simp [List.getD_eq_getElem?_getD, List.getElem?_set_ne (Ne.symm hab)]

theorem heapGet_append_lt {h : Heap} {c : List (String × PyVal)} {b : Nat}
    (hb : b < h.length) : heapGet (h ++ [c]) b = heapGet h b := by
  unfold heapGet
  simp [List.getD_eq_getElem?_getD, List.getElem?_append_left hb]

theorem pasoEncriptarHeap_frame {hashpw : String → String}
    {conjunto : List String} {h : Heap} {aF : Nat} {campo : String} {h2 : Heap}
    {r : Except PyErr Unit}
    (hp : pasoEncriptarHeap hashpw conjunto h aF campo = (h2, r)) :
    ∀ b, b ≠ aF → heapGet h2 b = heapGet h b := by
  intro b hb
  unfold pasoEncriptarHeap at hp
  split at hp
  · injection hp with hp2 hp3
    rw [← hp2]
  · rename_i v hl
    split at hp
    · rename_i hc
      cases he : encriptarM hashpw (pyStr v) with
      | error e =>
        rw [he] at hp
        injection hp with hp2 hp3
        rw [← hp2]
      | ok cif =>
        rw [he] at hp
        injection hp with hp2 hp3
        rw [← hp2]
        exact heapGet_heapSet_ne hb
    · injection hp with hp2 hp3
      rw [← hp2]

theorem buclePorCampos_frame {hashpw : String → String} {conjunto : List String} :
    ∀ {campos : List String} {h : Heap} {aF : Nat} {h2 : Heap}
      {r : Except PyErr Unit},
    buclePorCampos hashpw conjunto campos h aF = (h2, r) →
    ∀ b, b ≠ aF → heapGet h2 b = heapGet h b := by
  intro campos
  induction campos with
  | nil =>
    intro h aF h2 r hp b hb
    unfold buclePorCampos at hp
    injection hp with hp2 hp3
    rw [← hp2]
  | cons campo resto ih =>
    intro h aF h2 r hp b hb
    unfold buclePorCampos at hp
    split at hp
    · rename_i hm u hpaso
      rw [ih hp b hb, pasoEncriptarHeap_frame hpaso b hb]
    · rename_i hm e hpaso
      injection hp with hp2 hp3
      rw [← hp2]
      exact pasoEncriptarHeap_frame hpaso b hb

theorem prepararDatosFinalesHeap_frame {hashpw : String → String} {h : Heap}
    {aDatos : Nat} {ce : Option String} {h2 : Heap} {r : Except PyErr Nat}
    (hp : prepararDatosFinalesHeap hashpw h aDatos ce = (h2, r)) :
    ∀ b, b < h.length → heapGet h2 b = heapGet h b := by
  intro b hb
  have hne : b ≠ h.length := Nat.ne_of_lt hb
  cases ce with
  | none =>
    unfold prepararDatosFinalesHeap at hp
    injection hp with hp2 hp3
    rw [← hp2]
    exact heapGet_append_lt hb
  | some cs =>
    rw [prepararDatosFinalesHeap] at hp
    by_cases hcs : (cs == "") = true
    · rw [if_pos hcs] at hp
      injection hp with hp2 hp3
      rw [← hp2]
      exact heapGet_append_lt hb
    · rw [if_neg hcs] at hp
      split at hp
      · rename_i hm u hbu
        injection hp with hp2 hp3
        rw [← hp2]
        rw [buclePorCampos_frame hbu b hne]
        exact heapGet_append_lt hb
      · rename_i hm e hbu
        injection hp with hp2 hp3
        rw [← hp2]
        rw [buclePorCampos_frame hbu b hne]
        exact heapGet_append_lt hb

/-! ## Claims -/

/-- Claim C2 (code_bug): the claim states that every value-coercion
function returns a value and never raises, falling back to the raw string
on a malformed literal.  The fallback `except (ValueError, TypeError)`
clause does not name `decimal.InvalidOperation`, which the `Decimal`
constructor raises on a malformed literal, so at input value `abc` with
catalog type `decimal`/`numeric` all three dialect functions raise instead
of returning `abc`; the integer branch, whose failure is a `ValueError`,
falls back as documented. -/
theorem convertirValor_decimal_invalido_lanza :
    convertirValorSqlServer "abc" (some "decimal") = .error .invalidOperation ∧
    convertirValorPostgres "abc" (some "numeric") = .error .invalidOperation ∧
    convertirValorMysql "abc" (some "decimal") = .error .invalidOperation ∧
    convertirValorSqlServer "abc" (some "int") = .ok (.vStr "abc") := by
  refine ⟨by decide, by decide, by decide, by decide⟩

/-- Claim C1, counterexample: in the MySQL/MariaDB dialect, `eliminar`
binds the raw key string with no catalog detection and no coercion at all
(its model does not even consult a catalog oracle), although the coercion
function would map `30` at type `int` to the integer 30.  This refutes the
claim that every dialect coerces the key value in update and delete. -/
theorem eliminarMysql_clave_sin_coaccion :
    eliminarMysql "t" "id" "30" none =
      .ok { sql := "DELETE FROM `t` WHERE `id` = :valor_clave",
            params := [("valor_clave", .vStr "30")] } ∧
    convertirValorMysql "30" (some "int") = .ok (.vInt 30) ∧
    PyVal.vStr "30" ≠ PyVal.vInt 30 := by
  refine ⟨by decide, by decide, by decide⟩

/-- Claim C1, amended: in the SQL Server and PostgreSQL dialects, update
and delete detect the catalog type of the key column and coerce the key
value string with it before binding it as the WHERE parameter; the
MySQL/MariaDB dialect instead binds the raw key string --- its update
assigns the string unchanged and its delete performs no detection at
all. -/
theorem coaccionClaveActualizarEliminar :
    (∀ cat tabla clave valorClave esquema st,
      eliminarSqlServer cat tabla clave valorClave esquema = .ok st →
      ∃ w, convertirValorSqlServer valorClave
          (detectarTipoColumnaSqlServer cat tabla (esquemaFinalSqlServer esquema) clave) =
            .ok w ∧
        st.params = [("valor_clave", w)]) ∧
    (∀ cat tabla clave valorClave esquema st,
      eliminarPg cat tabla clave valorClave esquema = .ok st →
      ∃ w, convertirValorPostgres valorClave
          (detectarTipoColumnaPg cat tabla (esquemaFinalPg esquema) clave) = .ok w ∧
        st.params = [("valor_clave", w)]) ∧
    (∀ hashpw cat tabla clave valorClave datos esquema ce st,
      actualizarSqlServer hashpw cat tabla clave valorClave datos esquema ce = .ok st →
      ∃ w, convertirValorSqlServer valorClave
          (detectarTipoColumnaSqlServer cat tabla (esquemaFinalSqlServer esquema) clave) =
            .ok w ∧
        List.lookup "valor_clave" st.params = some w) ∧
    (∀ hashpw cat tabla clave valorClave datos esquema ce st,
      actualizarPg hashpw cat tabla clave valorClave datos esquema ce = .ok st →
      ∃ w, convertirValorPostgres valorClave
          (detectarTipoColumnaPg cat tabla (esquemaFinalPg esquema) clave) = .ok w ∧
        List.lookup "valor_clave" st.params = some w) ∧
    (∀ hashpw cat tabla clave valorClave datos esquema ce st,
      actualizarMysql hashpw cat tabla clave valorClave datos esquema ce = .ok st →
      List.lookup "valor_clave" st.params = some (.vStr valorClave)) ∧
    (∀ tabla clave valorClave esquema st,
      eliminarMysql tabla clave valorClave esquema = .ok st →
      st.params = [("valor_clave", .vStr valorClave)]) := by
  refine ⟨?_, ?_, ?_, ?_, ?_, ?_⟩
  · intro cat tabla clave valorClave esquema st h
    unfold eliminarSqlServer at h
    split at h
    · exact absurd h (by simp)
    split at h
    · exact absurd h (by simp)
    split at h
    · exact absurd h (by simp)
    simp only [] at h
    cases hw : convertirValorSqlServer valorClave
        (detectarTipoColumnaSqlServer cat tabla (esquemaFinalSqlServer esquema) clave) with
    | error e => rw [hw] at h; simp at h
    | ok w =>
      rw [hw] at h
      injection h with h2
      exact ⟨w, rfl, by rw [← h2]⟩
  · intro cat tabla clave valorClave esquema st h
    unfold eliminarPg at h
    split at h
    · exact absurd h (by simp)
    split at h
    · exact absurd h (by simp)
    split at h
    · exact absurd h (by simp)
    simp only [] at h
    cases hw : convertirValorPostgres valorClave
        (detectarTipoColumnaPg cat tabla (esquemaFinalPg esquema) clave) with
    | error e => rw [hw] at h; simp at h
    | ok w =>
      rw [hw] at h
      injection h with h2
      exact ⟨w, rfl, by rw [← h2]⟩
  · intro hashpw cat tabla clave valorClave datos esquema ce st h
    unfold actualizarSqlServer at h
    split at h
    · exact absurd h (by simp)
    split at h
    · exact absurd h (by simp)
    split at h
    · exact absurd h (by simp)
    split at h
    · exact absurd h (by simp)
    split at h
    · exact absurd h (by simp)
    rename_i datosFinales hprep
    unfold actualizarSqlServerDesde at h
    simp only [] at h
    cases hvalores : construirValoresSqlServer cat tabla
        (esquemaFinalSqlServer esquema) datosFinales with
    | error e => rw [hvalores] at h; simp at h
    | ok valores =>
      rw [hvalores] at h
      cases hw : convertirValorSqlServer valorClave
          (detectarTipoColumnaSqlServer cat tabla (esquemaFinalSqlServer esquema) clave) with
      | error e => rw [hw] at h; simp at h
      | ok w =>
        rw [hw] at h
        injection h with h2
        refine ⟨w, rfl, ?_⟩
        rw [← h2]
        exact lookup_pyDictSet_self valores "valor_clave" w
  · intro hashpw cat tabla clave valorClave datos esquema ce st h
    unfold actualizarPg at h
    split at h
    · exact absurd h (by simp)
    split at h
    · exact absurd h (by simp)
    split at h
    · exact absurd h (by simp)
    split at h
    · exact absurd h (by simp)
    split at h
    · exact absurd h (by simp)
    rename_i datosFinales hprep
    unfold actualizarPgDesde at h
    simp only [] at h
    cases hvalores : construirValoresPg cat tabla (esquemaFinalPg esquema)
        datosFinales with
    | error e => rw [hvalores] at h; simp at h
    | ok valores =>
      rw [hvalores] at h
      cases hw : convertirValorPostgres valorClave
          (detectarTipoColumnaPg cat tabla (esquemaFinalPg esquema) clave) with
      | error e => rw [hw] at h; simp at h
      | ok w =>
        rw [hw] at h
        injection h with h2
        refine ⟨w, rfl, ?_⟩
        rw [← h2]
        exact lookup_pyDictSet_self valores "valor_clave" w
  · intro hashpw cat tabla clave valorClave datos esquema ce st h
    unfold actualizarMysql at h
    split at h
    · exact absurd h (by simp)
    split at h
    · exact absurd h (by simp)
    split at h
    · exact absurd h (by simp)
    split at h
    · exact absurd h (by simp)
    split at h
    · exact absurd h (by simp)
    rename_i datosFinales hprep
    unfold actualizarMysqlDesde at h
    simp only [] at h
    cases hvalores : construirValoresMysql cat tabla datosFinales with
    | error e => rw [hvalores] at h; simp at h
    | ok valores =>
      rw [hvalores] at h
      injection h with h2
      rw [← h2]
      exact lookup_pyDictSet_self valores "valor_clave" (.vStr valorClave)
  · intro tabla clave valorClave esquema st h
    unfold eliminarMysql at h
    split at h
    · exact absurd h (by simp)
    split at h
    · exact absurd h (by simp)
    split at h
    · exact absurd h (by simp)
    simp only [] at h
    injection h with h2
    rw [← h2]

/-- Claim C1, witness: the SQL Server delete conjunct applied at a concrete
catalog typing the key column as `int`, where the bound value is the
coerced integer. -/
theorem coaccionClaveActualizarEliminar_testigo :
    ∃ w, convertirValorSqlServer "30"
        (detectarTipoColumnaSqlServer (fun _ _ _ => .ok (some "int")) "t"
          (esquemaFinalSqlServer none) "id") = .ok w ∧
      (Stmt.mk "DELETE FROM [dbo].[t] WHERE [id] = :valor_clave"
        [("valor_clave", PyVal.vInt 30)]).params = [("valor_clave", w)] :=
  coaccionClaveActualizarEliminar.1 (fun _ _ _ => .ok (some "int")) "t" "id"
    "30" none _ (by decide)

/-- Claim C6, counterexample: `listar` with the caller-supplied limit 0
issues the default 1000, not the caller limit, refuting the claim that a
caller-supplied limit is always issued as given (the service normalizes
non-positive limits away and the repository treats 0 as absent). -/
theorem listar_limite_cero_contraejemplo :
    listarPg "t" none (some 0) =
      .ok { sql := "SELECT * FROM \"public\".\"t\" LIMIT :limite",
            params := [("limite", .vInt 1000)] } ∧
    (0 : Int) ≠ 1000 := by
  refine ⟨by decide, by decide⟩

/-- The row limit the amended claim C6 says is issued: the caller limit
when positive, the default 1000 when the limit is absent or not
positive. -/
def limiteEfectivoEnmendado : Option Int → Int
  | some n => if 0 < n then n else 1000
  | none => 1000

/-- Claim C6, amended: for every dialect and non-empty table with absent
schema, `listar` issues a row limit of 1000 when no limit or a non-positive
limit is given, and issues exactly the caller limit when it is positive
(SQL Server interpolates it into `TOP (n)`; PostgreSQL and MySQL/MariaDB
bind it as the `limite` parameter). -/
theorem listarLimitePorDialecto (tabla : String) (limite : Option Int)
    (ht : esVacia tabla = false) :
    listarSqlServer tabla none limite =
      .ok { sql := "SELECT TOP (" ++ toString (limiteEfectivoEnmendado limite) ++
              ") * FROM [" ++ "dbo" ++ "].[" ++ tabla ++ "]",
            params := [] } ∧
    listarPg tabla none limite =
      .ok { sql := "SELECT * FROM \"" ++ "public" ++ "\".\"" ++ tabla ++
              "\" LIMIT :limite",
            params := [("limite", .vInt (limiteEfectivoEnmendado limite))] } ∧
    listarMysql tabla none limite =
      .ok { sql := "SELECT * FROM " ++ "" ++ "`" ++ tabla ++ "` LIMIT :limite",
            params := [("limite", .vInt (limiteEfectivoEnmendado limite))] } := by
  have hval : pyOrInt (limiteNorm limite) 1000 = limiteEfectivoEnmendado limite := by
    cases limite with
    | none => rfl
    | some n =>
      by_cases hn : 0 < n
      · simp [limiteNorm, pyOrInt, limiteEfectivoEnmendado, hn, beq_iff_eq,
          show ¬n = 0 by omega]
      · simp [limiteNorm, pyOrInt, limiteEfectivoEnmendado, hn,
          show ¬(¬n = 0 ∧ n > 0) by omega]
  have hdbo : esquemaFinalSqlServer none = "dbo" := by decide
  have hpub : esquemaFinalPg none = "public" := by decide
  have hpre : prefijoEsquemaMysql none = "" := rfl
  have hnorm : esquemaNorm none = none := rfl
  refine ⟨?_, ?_, ?_⟩ <;>
    simp [listarSqlServer, listarPg, listarMysql, obtenerFilasSqlServer,
      obtenerFilasPg, obtenerFilasMysql, ht, hnorm, hval, hdbo, hpub, hpre]

/-- Claim C6, witness: the amended theorem applied at table `t` and caller
limit 5. -/
theorem listarLimitePorDialecto_testigo :
    listarSqlServer "t" none (some 5) =
      .ok { sql := "SELECT TOP (" ++ toString (limiteEfectivoEnmendado (some 5)) ++
              ") * FROM [" ++ "dbo" ++ "].[" ++ "t" ++ "]",
            params := [] } ∧
    listarPg "t" none (some 5) =
      .ok { sql := "SELECT * FROM \"" ++ "public" ++ "\".\"" ++ "t" ++
              "\" LIMIT :limite",
            params := [("limite", .vInt (limiteEfectivoEnmendado (some 5)))] } ∧
    listarMysql "t" none (some 5) =
      .ok { sql := "SELECT * FROM " ++ "" ++ "`" ++ "t" ++ "` LIMIT :limite",
            params := [("limite", .vInt (limiteEfectivoEnmendado (some 5)))] } :=
  listarLimitePorDialecto "t" (some 5) (by decide)

theorem bounds_of_validDate {y m d : Nat} (hv : validDate y m d = true) :
    y ≤ 9999 ∧ m ≤ 99 ∧ d ≤ 99 := by
  unfold validDate at hv
  simp only [Bool.and_eq_true, decide_eq_true_eq] at hv
  have hdm : daysInMonth y m ≤ 31 := by
    unfold daysInMonth
    split_ifs <;> omega
  omega

/-- Claim C3, counterexample: SQL Server treats `smalldatetime` as a
timestamp type in its coercion engine (`familiaTimestampSqlServer`), and
`2024-01-15` is a date-only value, yet `obtener_por_clave` on a
`smalldatetime` column produces the raw-equality predicate comparing the
full timestamp (midnight), not the `CAST(... AS DATE)` form --- the
truncation branch only tests `datetime`/`datetime2`. -/
theorem fechaSinTruncarSmalldatetime :
    familiaTimestampSqlServer.contains "smalldatetime" = true ∧
    esFechaSinHora "2024-01-15" = true ∧
    obtenerPorClaveSqlServer (fun _ _ _ => .ok (some "smalldatetime")) "t" "c"
        "2024-01-15" none =
      .ok { sql := "SELECT * FROM [dbo].[t] WHERE [c] = :valor",
            params := [("valor", .vDateTime ⟨⟨2024, 1, 15⟩, ⟨0, 0, 0, 0⟩, none⟩)] } := by
  refine ⟨by decide, by decide, by decide⟩

/-- Claim C3, amended: filtering a timestamp-typed column with a value of
the exact form `YYYY-MM-DD` produces the date-truncated predicate
(`CAST(col AS DATE)` on SQL Server and PostgreSQL, `DATE(col)` on
MySQL/MariaDB) with the parsed date bound, for every type of the
PostgreSQL and MySQL timestamp families --- but on SQL Server only for
`datetime` and `datetime2`, not for `smalldatetime`. -/
theorem fechaTruncadaPorDialecto :
    (∀ cat tabla clave esquema y m d,
      esVacia tabla = false → esVacia clave = false →
      validDate y m d = true →
      (detectarTipoColumnaSqlServer cat tabla (esquemaFinalSqlServer esquema) clave =
          some "datetime" ∨
       detectarTipoColumnaSqlServer cat tabla (esquemaFinalSqlServer esquema) clave =
          some "datetime2") →
      obtenerPorClaveSqlServer cat tabla clave (dateIso ⟨y, m, d⟩) esquema =
        .ok { sql := "SELECT * FROM [" ++ esquemaFinalSqlServer esquema ++ "].[" ++
                tabla ++ "] WHERE CAST([" ++ clave ++ "] AS DATE) = :valor",
              params := [("valor", .vDate ⟨y, m, d⟩)] }) ∧
    (∀ cat tabla clave esquema y m d tipo,
      esVacia tabla = false → esVacia clave = false →
      validDate y m d = true →
      tipo ∈ familiaTimestampPg →
      detectarTipoColumnaPg cat tabla (esquemaFinalPg esquema) clave = some tipo →
      obtenerPorClavePg cat tabla clave (dateIso ⟨y, m, d⟩) esquema =
        .ok { sql := "SELECT * FROM \"" ++ esquemaFinalPg esquema ++ "\".\"" ++
                tabla ++ "\" WHERE CAST(\"" ++ clave ++ "\" AS DATE) = :valor",
              params := [("valor", .vDate ⟨y, m, d⟩)] }) ∧
    (∀ cat tabla clave esquema y m d tipo,
      esVacia tabla = false → esVacia clave = false →
      validDate y m d = true →
      tipo ∈ familiaTimestampMysql →
      detectarTipoColumnaMysql cat tabla clave = some tipo →
      obtenerPorClaveMysql cat tabla clave (dateIso ⟨y, m, d⟩) esquema =
        .ok { sql := "SELECT * FROM " ++ prefijoEsquemaMysql esquema ++ "`" ++
                tabla ++ "` WHERE DATE(`" ++ clave ++ "`) = :valor",
              params := [("valor", .vDate ⟨y, m, d⟩)] }) := by
  refine ⟨?_, ?_, ?_⟩
  · intro cat tabla clave esquema y m d ht hc hv hdet
    obtain ⟨hy, hm, hd⟩ := bounds_of_validDate hv
    unfold obtenerPorClaveSqlServer
    rw [if_neg (by simp [ht]), if_neg (by simp [hc]),
        if_neg (by simp [esVacia_dateIso])]
    simp only []
    rcases hdet with hdet | hdet <;>
      rw [hdet] <;>
      simp [esFechaSinHora_dateIso, extraerSoloFecha_dateIso y m d hy hm hd, hv]
  · intro cat tabla clave esquema y m d tipo ht hc hv htipo hdet
    obtain ⟨hy, hm, hd⟩ := bounds_of_validDate hv
    have htipo2 : tipo = "timestamp without time zone" ∨
        tipo = "timestamp with time zone" := by
      simpa [familiaTimestampPg] using htipo
    unfold obtenerPorClavePg
    rw [if_neg (by simp [ht]), if_neg (by simp [hc]),
        if_neg (by simp [esVacia_dateIso])]
    simp only []
    rw [hdet]
    rcases htipo2 with h | h <;> subst h <;>
      simp [esFechaSinHora_dateIso, extraerSoloFecha_dateIso y m d hy hm hd, hv]
  · intro cat tabla clave esquema y m d tipo ht hc hv htipo hdet
    obtain ⟨hy, hm, hd⟩ := bounds_of_validDate hv
    have htipo2 : tipo = "datetime" ∨ tipo = "timestamp" := by
      simpa [familiaTimestampMysql] using htipo
    unfold obtenerPorClaveMysql
    rw [if_neg (by simp [ht]), if_neg (by simp [hc]),
        if_neg (by simp [esVacia_dateIso])]
    simp only []
    rw [hdet]
    rcases htipo2 with h | h <;> subst h <;>
      simp [esFechaSinHora_dateIso, extraerSoloFecha_dateIso y m d hy hm hd, hv]

/-- Claim C3, witness: the PostgreSQL conjunct applied at a concrete
catalog typing the column as `timestamp without time zone` and the value
`2024-01-15`. -/
theorem fechaTruncadaPorDialecto_testigo :
    obtenerPorClavePg (fun _ _ _ => .ok (some "timestamp without time zone"))
        "t" "c" (dateIso ⟨2024, 1, 15⟩) none =
      .ok { sql := "SELECT * FROM \"" ++ esquemaFinalPg none ++ "\".\"" ++
              "t" ++ "\" WHERE CAST(\"" ++ "c" ++ "\" AS DATE) = :valor",
            params := [("valor", .vDate ⟨2024, 1, 15⟩)] } :=
  fechaTruncadaPorDialecto.2.1 (fun _ _ _ => .ok (some "timestamp without time zone"))
    "t" "c" none 2024 1 15 "timestamp without time zone" (by decide) (by decide)
    (by decide) (by decide) (by decide)

/-- Claim C8: for every dialect, column-type detection returns the
lower-cased catalog type when the catalog query finds the column, `None`
when the column or table is absent, and `None` on a lookup failure without
raising; and the enclosing CRUD operation (here delete, the operation that
depends on it most directly) still issues its statement, binding the value
as a raw string, when the catalog lookup fails. -/
theorem deteccionTipoMejorEsfuerzo :
    (∀ (cat : Catalogo3) tabla esquema columna t,
      cat esquema tabla columna = .ok (some t) →
      detectarTipoColumnaSqlServer cat tabla esquema columna = some (pyToLower t)) ∧
    (∀ (cat : Catalogo3) tabla esquema columna,
      cat esquema tabla columna = .ok none →
      detectarTipoColumnaSqlServer cat tabla esquema columna = none) ∧
    (∀ (cat : Catalogo3) tabla esquema columna e,
      cat esquema tabla columna = .error e →
      detectarTipoColumnaSqlServer cat tabla esquema columna = none) ∧
    (∀ (cat : Catalogo3) tabla esquema columna t,
      cat esquema tabla columna = .ok (some t) →
      detectarTipoColumnaPg cat tabla esquema columna = some (pyToLower t)) ∧
    (∀ (cat : Catalogo3) tabla esquema columna,
      cat esquema tabla columna = .ok none →
      detectarTipoColumnaPg cat tabla esquema columna = none) ∧
    (∀ (cat : Catalogo3) tabla esquema columna e,
      cat esquema tabla columna = .error e →
      detectarTipoColumnaPg cat tabla esquema columna = none) ∧
    (∀ (cat : Catalogo2) tabla columna t,
      cat tabla columna = .ok (some t) →
      detectarTipoColumnaMysql cat tabla columna = some (pyToLower t)) ∧
    (∀ (cat : Catalogo2) tabla columna,
      cat tabla columna = .ok none →
      detectarTipoColumnaMysql cat tabla columna = none) ∧
    (∀ (cat : Catalogo2) tabla columna e,
      cat tabla columna = .error e →
      detectarTipoColumnaMysql cat tabla columna = none) ∧
    (∀ (cat : Catalogo3) tabla clave valorClave esquema,
      esVacia tabla = false → esVacia clave = false → esVacia valorClave = false →
      cat (esquemaFinalSqlServer esquema) tabla clave = .error () →
      eliminarSqlServer cat tabla clave valorClave esquema =
        .ok { sql := "DELETE FROM [" ++ esquemaFinalSqlServer esquema ++ "].[" ++
                tabla ++ "] WHERE [" ++ clave ++ "] = :valor_clave",
              params := [("valor_clave", .vStr valorClave)] }) := by
  refine ⟨?_, ?_, ?_, ?_, ?_, ?_, ?_, ?_, ?_, ?_⟩
  · intro cat tabla esquema columna t h
    unfold detectarTipoColumnaSqlServer
    rw [h]
  · intro cat tabla esquema columna h
    unfold detectarTipoColumnaSqlServer
    rw [h]
  · intro cat tabla esquema columna e h
    unfold detectarTipoColumnaSqlServer
    rw [h]
  · intro cat tabla esquema columna t h
    unfold detectarTipoColumnaPg
    rw [h]
  · intro cat tabla esquema columna h
    unfold detectarTipoColumnaPg
    rw [h]
  · intro cat tabla esquema columna e h
    unfold detectarTipoColumnaPg
    rw [h]
  · intro cat tabla columna t h
    unfold detectarTipoColumnaMysql
    rw [h]
  · intro cat tabla columna h
    unfold detectarTipoColumnaMysql
    rw [h]
  · intro cat tabla columna e h
    unfold detectarTipoColumnaMysql
    rw [h]
  · intro cat tabla clave valorClave esquema ht hc hv hcat
    have hdet : detectarTipoColumnaSqlServer cat tabla
        (esquemaFinalSqlServer esquema) clave = none := by
      unfold detectarTipoColumnaSqlServer
      rw [hcat]
    unfold eliminarSqlServer
    rw [if_neg (by simp [ht]), if_neg (by simp [hc]), if_neg (by simp [hv])]
    simp only []
    rw [hdet]
    simp [convertirValorSqlServer]

/-- Claim C8, witness: the failure conjunct and the composite conjunct
applied at concrete inputs with a failing catalog oracle. -/
theorem deteccionTipoMejorEsfuerzo_testigo :
    detectarTipoColumnaSqlServer (fun _ _ _ => .error ()) "t" "dbo" "c" = none ∧
    eliminarSqlServer (fun _ _ _ => .error ()) "t" "id" "30" none =
      .ok { sql := "DELETE FROM [" ++ esquemaFinalSqlServer none ++ "].[" ++
              "t" ++ "] WHERE [" ++ "id" ++ "] = :valor_clave",
            params := [("valor_clave", .vStr "30")] } :=
  ⟨deteccionTipoMejorEsfuerzo.2.2.1 (fun _ _ _ => .error ()) "t" "dbo" "c" () rfl,
   (deteccionTipoMejorEsfuerzo.2.2.2.2.2.2.2.2.2) (fun _ _ _ => .error ()) "t"
     "id" "30" none (by decide) (by decide) (by decide) rfl⟩

theorem convertirValorPostgres_date (valor : String) :
    convertirValorPostgres valor (some "date") =
      match extraerSoloFecha valor with
      | .ok d => .ok (.vDate d)
      | .error _ => .ok (.vStr valor) := rfl

/-- Claim C9: coercing any string of the form `YYYY-MM-DD` against catalog
type `date` and serializing the result through the Row Codec returns the
original string (when the digits form a valid calendar date the parsed date
re-serializes to the same zero-padded form; otherwise the coercion falls
back to the raw string, which the codec passes through); and a string
coerced to an integer serializes as that integer, equal to the source
number. -/
theorem codificacionFechaIdaYVuelta :
    (∀ y m d : Nat, y ≤ 9999 → m ≤ 99 → d ≤ 99 →
      (convertirValorPostgres (dateIso ⟨y, m, d⟩) (some "date")).map serializarValorPg =
        .ok (.vStr (dateIso ⟨y, m, d⟩))) ∧
    (convertirValorPostgres "30" (some "integer")).map serializarValorPg =
      .ok (.vInt 30) := by
  refine ⟨?_, by decide⟩
  intro y m d hy hm hd
  rw [convertirValorPostgres_date]
  rw [extraerSoloFecha_dateIso y m d hy hm hd]
  by_cases hv : validDate y m d = true
  · simp [hv, Except.map, serializarValorPg]
  · simp [hv, Except.map, serializarValorPg]

/-- Claim C9, witness: the round trip applied at `2024-01-15`. -/
theorem codificacionFechaIdaYVuelta_testigo :
    (convertirValorPostgres (dateIso ⟨2024, 1, 15⟩) (some "date")).map serializarValorPg =
      .ok (.vStr (dateIso ⟨2024, 1, 15⟩)) :=
  codificacionFechaIdaYVuelta.1 2024 1 15 (by decide) (by decide) (by decide)

/-- Claim C4, counterexample: a row that matches the user value but whose
stored credential cell is NULL yields the not-found outcome (404), so
"404 exactly when the user value matches no row" is false --- the
repository surfaces `None` both for a missing row and for a falsy stored
value. -/
theorem verificacion404ConFilaExistente :
    verificarContrasenaSqlServer (some PyVal.vNone) (fun _ _ => true)
        "usuarios" "email" "clave" "alice" "secreta" none =
      .ok (404, "Usuario no encontrado.") ∧
    some PyVal.vNone ≠ (none : Option PyVal) := by
  refine ⟨by decide, by decide⟩

/-- Claim C4, amended: with non-empty validated inputs and a stored
credential value that is not whitespace-only when truthy, credential
verification returns 404 exactly when no row matches or the matched row's
stored value is falsy (NULL or empty), 200 exactly when a truthy stored
hash exists and the plaintext verifies against it, and 401 exactly when a
truthy stored hash exists and the plaintext does not verify. -/
theorem verificacionTresResultados
    (fila : Option PyVal) (checkpw : String → String → Bool)
    (tabla cu cc vu vc : String) (esquema : Option String)
    (ht : esVacia tabla = false) (h1 : esVacia cu = false)
    (h2 : esVacia cc = false) (h3 : esVacia vu = false)
    (h4 : esVacia vc = false)
    (hws : ∀ v, fila = some v → pyTruthy v = true → esVacia (pyStr v) = false) :
    ((verificarContrasenaSqlServer fila checkpw tabla cu cc vu vc esquema =
        .ok (404, "Usuario no encontrado.")) ↔
      (fila = none ∨ ∃ v, fila = some v ∧ pyTruthy v = false)) ∧
    ((verificarContrasenaSqlServer fila checkpw tabla cu cc vu vc esquema =
        .ok (200, "Contraseña válida.")) ↔
      (∃ v, fila = some v ∧ pyTruthy v = true ∧ checkpw vc (pyStr v) = true)) ∧
    ((verificarContrasenaSqlServer fila checkpw tabla cu cc vu vc esquema =
        .ok (401, "Contraseña incorrecta.")) ↔
      (∃ v, fila = some v ∧ pyTruthy v = true ∧ checkpw vc (pyStr v) = false)) := by
  unfold verificarContrasenaSqlServer verificarContrasenaSvc
  rw [if_neg (by simp [ht]), if_neg (by simp [h1]), if_neg (by simp [h2]),
      if_neg (by simp [h3]), if_neg (by simp [h4])]
  unfold obtenerHashContrasenaSqlServer
  simp only []
  rw [if_neg (by simp [ht]), if_neg (by simp [h1]), if_neg (by simp [h2]),
      if_neg (by simp [h3])]
  cases fila with
  | none => simp [Except.map]
  | some v =>
    by_cases htr : pyTruthy v = true
    · have hwsv := hws v rfl htr
      simp only [Except.map, htr, if_true]
      unfold verificarM
      rw [if_neg (by simp [h4]), if_neg (by simp [hwsv])]
      cases hcp : checkpw vc (pyStr v) with
      | true => simp [htr, hcp]
      | false => simp [htr, hcp]
    · have htr2 : pyTruthy v = false := bool_eq_false htr
      simp [Except.map, htr2]

/-- Claim C4, witness: the amended theorem applied at a concrete row whose
stored hash the concrete verifier rejects, giving 401. -/
theorem verificacionTresResultados_testigo :
    (verificarContrasenaSqlServer (some (PyVal.vStr "HASH")) (fun _ _ => false)
        "usuarios" "email" "clave" "alice" "secreta" none =
      .ok (401, "Contraseña incorrecta.")) ↔
    (∃ v, some (PyVal.vStr "HASH") = some v ∧ pyTruthy v = true ∧
      (fun (_ _ : String) => false) "secreta" (pyStr v) = false) :=
  (verificacionTresResultados (some (PyVal.vStr "HASH")) (fun _ _ => false)
    "usuarios" "email" "clave" "alice" "secreta" none (by decide) (by decide)
    (by decide) (by decide) (by decide)
    (fun v hv _ => by cases hv; decide)).2.2

/-- Claim C10: in the heap model of the mutable dictionary store, every
dialect's create and update operation leaves the caller's payload dict
(at any valid address `a`) exactly as it was, whether the operation
succeeds or fails --- the result pair carries the store in every case,
alongside the statement on success and alongside the raised exception on
failure, and the conclusion holds for an arbitrary outcome `r`:
`datos_finales = dict(datos)` copies the payload to a fresh address, the
encryption loop writes only to that copy, and the rest of each operation
only reads. -/
theorem crearActualizarNoMutanPayload :
    (∀ hashpw cat h a tabla esquema ce h2 r,
      a < List.length h →
      crearSqlServerHeap hashpw cat h a tabla esquema ce = (h2, r) →
      heapGet h2 a = heapGet h a) ∧
    (∀ hashpw cat h a tabla clave valorClave esquema ce h2 r,
      a < List.length h →
      actualizarSqlServerHeap hashpw cat h a tabla clave valorClave esquema ce =
        (h2, r) →
      heapGet h2 a = heapGet h a) ∧
    (∀ hashpw cat h a tabla esquema ce h2 r,
      a < List.length h →
      crearPgHeap hashpw cat h a tabla esquema ce = (h2, r) →
      heapGet h2 a = heapGet h a) ∧
    (∀ hashpw cat h a tabla clave valorClave esquema ce h2 r,
      a < List.length h →
      actualizarPgHeap hashpw cat h a tabla clave valorClave esquema ce =
        (h2, r) →
      heapGet h2 a = heapGet h a) ∧
    (∀ hashpw cat h a tabla esquema ce h2 r,
      a < List.length h →
      crearMysqlHeap hashpw cat h a tabla esquema ce = (h2, r) →
      heapGet h2 a = heapGet h a) ∧
    (∀ hashpw cat h a tabla clave valorClave esquema ce h2 r,
      a < List.length h →
      actualizarMysqlHeap hashpw cat h a tabla clave valorClave esquema ce =
        (h2, r) →
      heapGet h2 a = heapGet h a) := by
  refine ⟨?_, ?_, ?_, ?_, ?_, ?_⟩
  · intro hashpw cat h a tabla esquema ce h2 r ha hop
    unfold crearSqlServerHeap at hop
    split at hop
    · injection hop with hh hr
      rw [← hh]
    split at hop
    · injection hop with hh hr
      rw [← hh]
    split at hop
    · rename_i hm e hprep
      injection hop with hh hr
      rw [← hh]
      exact prepararDatosFinalesHeap_frame hprep a ha
    rename_i hm aF hprep
    split at hop
    · rename_i st2 hdesde
      injection hop with hh hr
      rw [← hh]
      exact prepararDatosFinalesHeap_frame hprep a ha
    · rename_i e hdesde
      injection hop with hh hr
      rw [← hh]
      exact prepararDatosFinalesHeap_frame hprep a ha
  · intro hashpw cat h a tabla clave valorClave esquema ce h2 r ha hop
    unfold actualizarSqlServerHeap at hop
    split at hop
    · injection hop with hh hr
      rw [← hh]
    split at hop
    · injection hop with hh hr
      rw [← hh]
    split at hop
    · injection hop with hh hr
      rw [← hh]
    split at hop
    · injection hop with hh hr
      rw [← hh]
    split at hop
    · rename_i hm e hprep
      injection hop with hh hr
      rw [← hh]
      exact prepararDatosFinalesHeap_frame hprep a ha
    rename_i hm aF hprep
    split at hop
    · rename_i st2 hdesde
      injection hop with hh hr
      rw [← hh]
      exact prepararDatosFinalesHeap_frame hprep a ha
    · rename_i e hdesde
      injection hop with hh hr
      rw [← hh]
      exact prepararDatosFinalesHeap_frame hprep a ha
  · intro hashpw cat h a tabla esquema ce h2 r ha hop
    unfold crearPgHeap at hop
    split at hop
    · injection hop with hh hr
      rw [← hh]
    split at hop
    · injection hop with hh hr
      rw [← hh]
    split at hop
    · rename_i hm e hprep
      injection hop with hh hr
      rw [← hh]
      exact prepararDatosFinalesHeap_frame hprep a ha
    rename_i hm aF hprep
    split at hop
    · rename_i st2 hdesde
      injection hop with hh hr
      rw [← hh]
      exact prepararDatosFinalesHeap_frame hprep a ha
    · rename_i e hdesde
      injection hop with hh hr
      rw [← hh]
      exact prepararDatosFinalesHeap_frame hprep a ha
  · intro hashpw cat h a tabla clave valorClave esquema ce h2 r ha hop
    unfold actualizarPgHeap at hop
    split at hop
    · injection hop with hh hr
      rw [← hh]
    split at hop
    · injection hop with hh hr
      rw [← hh]
    split at hop
    · injection hop with hh hr
      rw [← hh]
    split at hop
    · injection hop with hh hr
      rw [← hh]
    split at hop
    · rename_i hm e hprep
      injection hop with hh hr
      rw [← hh]
      exact prepararDatosFinalesHeap_frame hprep a ha
    rename_i hm aF hprep
    split at hop
    · rename_i st2 hdesde
      injection hop with hh hr
      rw [← hh]
      exact prepararDatosFinalesHeap_frame hprep a ha
    · rename_i e hdesde
      injection hop with hh hr
      rw [← hh]
      exact prepararDatosFinalesHeap_frame hprep a ha
  · intro hashpw cat h a tabla esquema ce h2 r ha hop
    unfold crearMysqlHeap at hop
    split at hop
    · injection hop with hh hr
      rw [← hh]
    split at hop
    · injection hop with hh hr
      rw [← hh]
    split at hop
    · rename_i hm e hprep
      injection hop with hh hr
      rw [← hh]
      exact prepararDatosFinalesHeap_frame hprep a ha
    rename_i hm aF hprep
    split at hop
    · rename_i st2 hdesde
      injection hop with hh hr
      rw [← hh]
      exact prepararDatosFinalesHeap_frame hprep a ha
    · rename_i e hdesde
      injection hop with hh hr
      rw [← hh]
      exact prepararDatosFinalesHeap_frame hprep a ha
  · intro hashpw cat h a tabla clave valorClave esquema ce h2 r ha hop
    unfold actualizarMysqlHeap at hop
    split at hop
    · injection hop with hh hr
      rw [← hh]
    split at hop
    · injection hop with hh hr
      rw [← hh]
    split at hop
    · injection hop with hh hr
      rw [← hh]
    split at hop
    · injection hop with hh hr
      rw [← hh]
    split at hop
    · rename_i hm e hprep
      injection hop with hh hr
      rw [← hh]
      exact prepararDatosFinalesHeap_frame hprep a ha
    rename_i hm aF hprep
    split at hop
    · rename_i st2 hdesde
      injection hop with hh hr
      rw [← hh]
      exact prepararDatosFinalesHeap_frame hprep a ha
    · rename_i e hdesde
      injection hop with hh hr
      rw [← hh]
      exact prepararDatosFinalesHeap_frame hprep a ha

/-- Claim C10, witness: a concrete SQL Server create with an encryption
directive --- the heap ends with the caller's dict intact at address 0 (the
hash substitution happened on the copy at address 1). -/
theorem crearActualizarNoMutanPayload_testigo :
    heapGet [[("Password", PyVal.vStr "pw1")],
             [("Password", PyVal.vStr "#pw1")]] 0 =
      heapGet [[("Password", PyVal.vStr "pw1")]] 0 :=
  crearActualizarNoMutanPayload.1 (fun s => "#" ++ s) (fun _ _ _ => .ok none)
    [[("Password", PyVal.vStr "pw1")]] 0 "t" none (some "password")
    [[("Password", PyVal.vStr "pw1")], [("Password", PyVal.vStr "#pw1")]]
    (.ok { sql := "INSERT INTO [dbo].[t] ([Password]) VALUES (:Password)",
           params := [("Password", PyVal.vStr "#pw1")] })
    (by decide) (by decide)

theorem string_append_left_inj (a : String) {b c : String}
    (h : a ++ b = a ++ c) : b = c := by
  have hd := congrArg String.data h
  rw [String.data_append, String.data_append] at hd
  exact String.ext (List.append_cancel_left hd)

theorem keys_ne_of_map {vpre : List (String × PyVal)} {ks : List String}
    (hmap : vpre.map Prod.fst = ks) {campo : String}
    (hk : ∀ k ∈ ks, ¬k = campo) : ∀ kv ∈ vpre, (campo == kv.1) = false := by
  intro kv hkv
  have hmem : kv.1 ∈ ks := hmap ▸ List.mem_map_of_mem Prod.fst hkv
  rw [beq_eq_false_iff_ne]
  exact fun e => hk kv.1 hmem e.symm

theorem prepararEncriptacion_middle
    (hashpw : String → String) (cs campo p : String)
    (pre post : List (String × PyVal)) {df : List (String × PyVal)}
    (hdir : (camposAEncriptar cs).contains (pyToLower campo) = true)
    (hp : esVacia p = false)
    (hcs : ¬(cs == "") = true)
    (hprep : prepararEncriptacion hashpw (pre ++ (campo, .vStr p) :: post)
      (some cs) = .ok df) :
    ∃ dpre dpost, df = dpre ++ (campo, .vStr (hashpw p)) :: dpost ∧
      dpre.map Prod.fst = pre.map Prod.fst := by
  rw [prepararEncriptacion, if_neg hcs] at hprep
  obtain ⟨r1, r2, hmap1, hmap2, hres⟩ := mapMExcept_append_ok hprep
  obtain ⟨y, r, hfy, _hrest, hr2⟩ := mapMExcept_cons_ok hmap2
  have hpne : p ≠ "" := by
    intro he
    subst he
    exact absurd hp (by decide)
  have htru : pyTruthy (.vStr p) = true := by simp [pyTruthy, hpne]
  have hcond : ((camposAEncriptar cs).contains (pyToLower campo) &&
      pyTruthy (PyVal.vStr p)) = true := by rw [hdir, htru]; rfl
  rw [if_pos hcond] at hfy
  have henc : encriptarM hashpw p = .ok (hashpw p) := by
    unfold encriptarM
    rw [if_neg (by simp [hp]), if_neg (by decide)]
  have hpyStr : pyStr (PyVal.vStr p) = p := rfl
  rw [hpyStr, henc] at hfy
  simp only [Except.map] at hfy
  injection hfy with hy
  have hkeys : r1.map Prod.fst = pre.map (fun kv => kv.1) := by
    refine mapMExcept_keys (fun k => k) ?_ hmap1
    intro kv w hw
    by_cases hc : ((camposAEncriptar cs).contains (pyToLower kv.1) &&
        pyTruthy kv.2) = true
    · rw [if_pos hc] at hw
      cases he2 : encriptarM hashpw (pyStr kv.2) with
      | error e => rw [he2] at hw; simp [Except.map] at hw
      | ok c =>
        rw [he2] at hw
        simp only [Except.map] at hw
        injection hw with hw2
        rw [← hw2]
    · rw [if_neg hc] at hw
      injection hw with hw2
      rw [← hw2]
  refine ⟨r1, r, ?_, hkeys⟩
  rw [hres, hr2, hy]

theorem construirValores_middle
    (G : (String × PyVal) → Except PyErr (String × PyVal)) (g : String → String)
    (hg : ∀ kv w, G kv = .ok w → w.1 = g kv.1)
    (campo H : String)
    (hGmid : G (campo, .vStr H) = .ok (g campo, .vStr H))
    (dpre dpost : List (String × PyVal)) {valores : List (String × PyVal)}
    (hvals : mapMExcept G (dpre ++ (campo, .vStr H) :: dpost) = .ok valores) :
    ∃ vpre vpost, valores = vpre ++ (g campo, .vStr H) :: vpost ∧
      vpre.map Prod.fst = dpre.map (fun kv => g kv.1) := by
  obtain ⟨r1, r2, h1, h2, hres⟩ := mapMExcept_append_ok hvals
  obtain ⟨y, r, hfy, _hrest, hr2⟩ := mapMExcept_cons_ok h2
  rw [hGmid] at hfy
  injection hfy with hy
  refine ⟨r1, r, ?_, mapMExcept_keys g hg h1⟩
  rw [hres, hr2, hy]

theorem convertirEntradaSqlServer_key (cat : Catalogo3) (tabla ef : String) :
    ∀ kv w, convertirEntradaSqlServer cat tabla ef kv = .ok w → w.1 = kv.1 := by
  intro kv w hw
  rcases kv with ⟨k0, v0⟩
  cases v0
  case vStr s =>
    simp only [convertirEntradaSqlServer] at hw
    cases hcv : convertirValorSqlServer s
        (detectarTipoColumnaSqlServer cat tabla ef k0) with
    | error e => rw [hcv] at hw; simp [Except.map] at hw
    | ok c =>
      rw [hcv] at hw
      simp only [Except.map] at hw
      injection hw with hw2
      rw [← hw2]
  all_goals
    injection hw with hw2
  all_goals
    rw [← hw2]

theorem convertirEntradaPg_key (cat : Catalogo3) (tabla ef : String) :
    ∀ kv w, convertirEntradaPg cat tabla ef kv = .ok w → w.1 = kv.1 := by
  intro kv w hw
  rcases kv with ⟨k0, v0⟩
  cases v0
  case vStr s =>
    simp only [convertirEntradaPg] at hw
    cases hcv : convertirValorPostgres s
        (detectarTipoColumnaPg cat tabla ef k0) with
    | error e => rw [hcv] at hw; simp [Except.map] at hw
    | ok c =>
      rw [hcv] at hw
      simp only [Except.map] at hw
      injection hw with hw2
      rw [← hw2]
  all_goals
    injection hw with hw2
  all_goals
    rw [← hw2]

theorem convertirEntradaMysql_key (cat : Catalogo2) (tabla : String) :
    ∀ kv w, convertirEntradaMysql cat tabla kv = .ok w → w.1 = "p_" ++ kv.1 := by
  intro kv w hw
  rcases kv with ⟨k0, v0⟩
  cases v0
  case vStr s =>
    simp only [convertirEntradaMysql] at hw
    cases hcv : convertirValorMysql s (detectarTipoColumnaMysql cat tabla k0) with
    | error e => rw [hcv] at hw; simp [Except.map] at hw
    | ok c =>
      rw [hcv] at hw
      simp only [Except.map] at hw
      injection hw with hw2
      rw [← hw2]
  all_goals
    injection hw with hw2
  all_goals
    rw [← hw2]

theorem convertirEntradaSqlServer_mid (cat : Catalogo3) (tabla ef campo H : String)
    (hconv : convertirValorSqlServer H
      (detectarTipoColumnaSqlServer cat tabla ef campo) = .ok (.vStr H)) :
    convertirEntradaSqlServer cat tabla ef (campo, .vStr H) = .ok (campo, .vStr H) := by
  simp only [convertirEntradaSqlServer, hconv, Except.map]

theorem convertirEntradaPg_mid (cat : Catalogo3) (tabla ef campo H : String)
    (hconv : convertirValorPostgres H
      (detectarTipoColumnaPg cat tabla ef campo) = .ok (.vStr H)) :
    convertirEntradaPg cat tabla ef (campo, .vStr H) = .ok (campo, .vStr H) := by
  simp only [convertirEntradaPg, hconv, Except.map]

theorem convertirEntradaMysql_mid (cat : Catalogo2) (tabla campo H : String)
    (hconv : convertirValorMysql H
      (detectarTipoColumnaMysql cat tabla campo) = .ok (.vStr H)) :
    convertirEntradaMysql cat tabla (campo, .vStr H) = .ok ("p_" ++ campo, .vStr H) := by
  simp only [convertirEntradaMysql, hconv, Except.map]

/-- Claim C5, counterexample: with the directive naming the field
(case-insensitively), a payload whose field value is the empty string is
NOT hashed --- the loop guard `and datos_finales[campo]` skips falsy values
--- so the bound value is exactly the plaintext empty string. -/
theorem crearPlanoVacioSinCifrar :
    pyToLower "Password" ∈ camposAEncriptar "password" ∧
    crearSqlServer (fun s => "#" ++ s) (fun _ _ _ => .ok none) "t"
        [("Password", .vStr "")] none (some "password") =
      .ok { sql := "INSERT INTO [dbo].[t] ([Password]) VALUES (:Password)",
            params := [("Password", .vStr "")] } := by
  refine ⟨by decide, by decide⟩

/-- Claim C5, amended: for create and update in every dialect, when (i) the
encrypt-fields directive contains a payload field name case-insensitively,
(ii) that field's value is a non-empty, non-whitespace-only string `p`,
(iii) the field's detected catalog type coerces the hash string to itself
--- as text-family and undetected types do; a bit/boolean- or numeric-typed
encrypted column instead binds the coerced image of the hash, not the hash
string (hypotheses `hconvSql`/`hconvPg`/`hconvMy`) --- and (iv) for the
SQL Server and PostgreSQL update the field is not itself named
`valor_clave`, whose parameter slot the coerced key value overwrites
(hypothesis `hkclave`), then the parameter bound for that field is the
bcrypt hash `hashpw p` and never the plaintext (whenever the hash differs
from the plaintext, as bcrypt hashes do), and verifying the plaintext
against the stored hash succeeds.  The remaining hypotheses are
well-formedness facts, not behavioural restrictions: the other payload
keys differ from the hashed field (Python dict keys are unique), the
bcrypt hash is a non-empty string (it is 60 characters), and the MySQL
parameter prefix `p_` keeps the hashed field's parameter distinct from
`valor_clave` (true of every field name, since `valor_clave` does not
start with `p_`). -/
theorem cifradoDirectivaCamposPorDialecto
    (hashpw : String → String) (checkpw : String → String → Bool)
    (cat3 : Catalogo3) (cat2 : Catalogo2)
    (tabla campo p cs clave valorClave : String) (esquema : Option String)
    (pre post : List (String × PyVal))
    (hdir : (camposAEncriptar cs).contains (pyToLower campo) = true)
    (hp : esVacia p = false)
    (hpre : ∀ kv ∈ pre, kv.1 ≠ campo)
    (hconvSql : convertirValorSqlServer (hashpw p)
      (detectarTipoColumnaSqlServer cat3 tabla (esquemaFinalSqlServer esquema) campo) =
        .ok (.vStr (hashpw p)))
    (hconvPg : convertirValorPostgres (hashpw p)
      (detectarTipoColumnaPg cat3 tabla (esquemaFinalPg esquema) campo) =
        .ok (.vStr (hashpw p)))
    (hconvMy : convertirValorMysql (hashpw p)
      (detectarTipoColumnaMysql cat2 tabla campo) = .ok (.vStr (hashpw p)))
    (hkclave : campo ≠ "valor_clave")
    (hkclaveMy : "p_" ++ campo ≠ "valor_clave")
    (hhne : esVacia (hashpw p) = false)
    (hcontract : ∀ q, checkpw q (hashpw q) = true) :
    (∀ st, crearSqlServer hashpw cat3 tabla (pre ++ (campo, .vStr p) :: post)
        esquema (some cs) = .ok st →
      List.lookup campo st.params = some (.vStr (hashpw p))) ∧
    (∀ st, crearPg hashpw cat3 tabla (pre ++ (campo, .vStr p) :: post)
        esquema (some cs) = .ok st →
      List.lookup campo st.params = some (.vStr (hashpw p))) ∧
    (∀ st, crearMysql hashpw cat2 tabla (pre ++ (campo, .vStr p) :: post)
        esquema (some cs) = .ok st →
      List.lookup ("p_" ++ campo) st.params = some (.vStr (hashpw p))) ∧
    (∀ st, actualizarSqlServer hashpw cat3 tabla clave valorClave
        (pre ++ (campo, .vStr p) :: post) esquema (some cs) = .ok st →
      List.lookup campo st.params = some (.vStr (hashpw p))) ∧
    (∀ st, actualizarPg hashpw cat3 tabla clave valorClave
        (pre ++ (campo, .vStr p) :: post) esquema (some cs) = .ok st →
      List.lookup campo st.params = some (.vStr (hashpw p))) ∧
    (∀ st, actualizarMysql hashpw cat2 tabla clave valorClave
        (pre ++ (campo, .vStr p) :: post) esquema (some cs) = .ok st →
      List.lookup ("p_" ++ campo) st.params = some (.vStr (hashpw p))) ∧
    (hashpw p ≠ p → PyVal.vStr (hashpw p) ≠ PyVal.vStr p) ∧
    verificarM checkpw p (hashpw p) = .ok true := by
  have hcs : ¬(cs == "") = true := by
    intro hx
    have hce : cs = "" := eq_of_beq hx
    subst hce
    have hnil : camposAEncriptar "" = [] := by decide
    rw [hnil] at hdir
    exact absurd hdir (by simp [List.contains])
  have hkpre : ∀ k ∈ pre.map Prod.fst, ¬k = campo := by
    intro k hkm
    obtain ⟨kv, hkv, he⟩ := List.mem_map.mp hkm
    rw [← he]
    exact hpre kv hkv
  refine ⟨?_, ?_, ?_, ?_, ?_, ?_, ?_, ?_⟩
  · intro st hop
    unfold crearSqlServer at hop
    split at hop
    · exact absurd hop (by simp)
    split at hop
    · exact absurd hop (by simp)
    split at hop
    · exact absurd hop (by simp)
    rename_i df hprep
    obtain ⟨dpre, dpost, hdf, hdk⟩ :=
      prepararEncriptacion_middle hashpw cs campo p pre post hdir hp hcs hprep
    subst hdf
    unfold crearSqlServerDesde at hop
    simp only [] at hop
    cases hvs : construirValoresSqlServer cat3 tabla (esquemaFinalSqlServer esquema)
        (dpre ++ (campo, .vStr (hashpw p)) :: dpost) with
    | error e => rw [hvs] at hop; simp at hop
    | ok valores =>
      rw [hvs] at hop
      injection hop with hop2
      unfold construirValoresSqlServer at hvs
      obtain ⟨vpre, vpost, hval, hvk⟩ :=
        construirValores_middle _ (fun k => k)
          (convertirEntradaSqlServer_key cat3 tabla _) campo (hashpw p)
          (convertirEntradaSqlServer_mid cat3 tabla _ campo (hashpw p) hconvSql)
          dpre dpost hvs
      rw [← hop2]
      show List.lookup campo valores = some (.vStr (hashpw p))
      rw [hval]
      exact lookup_middle vpre vpost campo (.vStr (hashpw p))
        (keys_ne_of_map (hvk.trans hdk) hkpre)
  · intro st hop
    unfold crearPg at hop
    split at hop
    · exact absurd hop (by simp)
    split at hop
    · exact absurd hop (by simp)
    split at hop
    · exact absurd hop (by simp)
    rename_i df hprep
    obtain ⟨dpre, dpost, hdf, hdk⟩ :=
      prepararEncriptacion_middle hashpw cs campo p pre post hdir hp hcs hprep
    subst hdf
    unfold crearPgDesde at hop
    simp only [] at hop
    cases hvs : construirValoresPg cat3 tabla (esquemaFinalPg esquema)
        (dpre ++ (campo, .vStr (hashpw p)) :: dpost) with
    | error e => rw [hvs] at hop; simp at hop
    | ok valores =>
      rw [hvs] at hop
      injection hop with hop2
      unfold construirValoresPg at hvs
      obtain ⟨vpre, vpost, hval, hvk⟩ :=
        construirValores_middle _ (fun k => k)
          (convertirEntradaPg_key cat3 tabla _) campo (hashpw p)
          (convertirEntradaPg_mid cat3 tabla _ campo (hashpw p) hconvPg)
          dpre dpost hvs
      rw [← hop2]
      show List.lookup campo valores = some (.vStr (hashpw p))
      rw [hval]
      exact lookup_middle vpre vpost campo (.vStr (hashpw p))
        (keys_ne_of_map (hvk.trans hdk) hkpre)
  · intro st hop
    unfold crearMysql at hop
    split at hop
    · exact absurd hop (by simp)
    split at hop
    · exact absurd hop (by simp)
    split at hop
    · exact absurd hop (by simp)
    rename_i df hprep
    obtain ⟨dpre, dpost, hdf, hdk⟩ :=
      prepararEncriptacion_middle hashpw cs campo p pre post hdir hp hcs hprep
    subst hdf
    unfold crearMysqlDesde at hop
    simp only [] at hop
    cases hvs : construirValoresMysql cat2 tabla
        (dpre ++ (campo, .vStr (hashpw p)) :: dpost) with
    | error e => rw [hvs] at hop; simp at hop
    | ok valores =>
      rw [hvs] at hop
      injection hop with hop2
      unfold construirValoresMysql at hvs
      obtain ⟨vpre, vpost, hval, hvk⟩ :=
        construirValores_middle _ (fun k => "p_" ++ k)
          (convertirEntradaMysql_key cat2 tabla) campo (hashpw p)
          (convertirEntradaMysql_mid cat2 tabla campo (hashpw p) hconvMy)
          dpre dpost hvs
      rw [← hop2]
      show List.lookup ("p_" ++ campo) valores = some (.vStr (hashpw p))
      rw [hval]
      refine lookup_middle vpre vpost ("p_" ++ campo) (.vStr (hashpw p)) ?_
      refine keys_ne_of_map hvk ?_
      intro k hkm
      obtain ⟨kv, hkv, he⟩ := List.mem_map.mp hkm
      rw [← he]
      intro heq
      have hkv1 : kv.1 = campo := string_append_left_inj "p_" heq
      have hmem : kv.1 ∈ pre.map Prod.fst := hdk ▸ List.mem_map_of_mem Prod.fst hkv
      exact hkpre kv.1 hmem hkv1
  · intro st hop
    unfold actualizarSqlServer at hop
    split at hop
    · exact absurd hop (by simp)
    split at hop
    · exact absurd hop (by simp)
    split at hop
    · exact absurd hop (by simp)
    split at hop
    · exact absurd hop (by simp)
    split at hop
    · exact absurd hop (by simp)
    rename_i df hprep
    obtain ⟨dpre, dpost, hdf, hdk⟩ :=
      prepararEncriptacion_middle hashpw cs campo p pre post hdir hp hcs hprep
    subst hdf
    unfold actualizarSqlServerDesde at hop
    simp only [] at hop
    cases hvs : construirValoresSqlServer cat3 tabla (esquemaFinalSqlServer esquema)
        (dpre ++ (campo, .vStr (hashpw p)) :: dpost) with
    | error e => rw [hvs] at hop; simp at hop
    | ok valores =>
      rw [hvs] at hop
      cases hkw : convertirValorSqlServer valorClave
          (detectarTipoColumnaSqlServer cat3 tabla (esquemaFinalSqlServer esquema)
            clave) with
      | error e => rw [hkw] at hop; simp at hop
      | ok w =>
        rw [hkw] at hop
        injection hop with hop2
        unfold construirValoresSqlServer at hvs
        obtain ⟨vpre, vpost, hval, hvk⟩ :=
          construirValores_middle _ (fun k => k)
            (convertirEntradaSqlServer_key cat3 tabla _) campo (hashpw p)
            (convertirEntradaSqlServer_mid cat3 tabla _ campo (hashpw p) hconvSql)
            dpre dpost hvs
        rw [← hop2]
        show List.lookup campo (pyDictSet valores "valor_clave" w) =
          some (.vStr (hashpw p))
        rw [lookup_pyDictSet_other valores "valor_clave" campo w
          (beq_eq_false_iff_ne.mpr hkclave)]
        rw [hval]
        exact lookup_middle vpre vpost campo (.vStr (hashpw p))
          (keys_ne_of_map (hvk.trans hdk) hkpre)
  · intro st hop
    unfold actualizarPg at hop
    split at hop
    · exact absurd hop (by simp)
    split at hop
    · exact absurd hop (by simp)
    split at hop
    · exact absurd hop (by simp)
    split at hop
    · exact absurd hop (by simp)
    split at hop
    · exact absurd hop (by simp)
    rename_i df hprep
    obtain ⟨dpre, dpost, hdf, hdk⟩ :=
      prepararEncriptacion_middle hashpw cs campo p pre post hdir hp hcs hprep
    subst hdf
    unfold actualizarPgDesde at hop
    simp only [] at hop
    cases hvs : construirValoresPg cat3 tabla (esquemaFinalPg esquema)
        (dpre ++ (campo, .vStr (hashpw p)) :: dpost) with
    | error e => rw [hvs] at hop; simp at hop
    | ok valores =>
      rw [hvs] at hop
      cases hkw : convertirValorPostgres valorClave
          (detectarTipoColumnaPg cat3 tabla (esquemaFinalPg esquema) clave) with
      | error e => rw [hkw] at hop; simp at hop
      | ok w =>
        rw [hkw] at hop
        injection hop with hop2
        unfold construirValoresPg at hvs
        obtain ⟨vpre, vpost, hval, hvk⟩ :=
          construirValores_middle _ (fun k => k)
            (convertirEntradaPg_key cat3 tabla _) campo (hashpw p)
            (convertirEntradaPg_mid cat3 tabla _ campo (hashpw p) hconvPg)
            dpre dpost hvs
        rw [← hop2]
        show List.lookup campo (pyDictSet valores "valor_clave" w) =
          some (.vStr (hashpw p))
        rw [lookup_pyDictSet_other valores "valor_clave" campo w
          (beq_eq_false_iff_ne.mpr hkclave)]
        rw [hval]
        exact lookup_middle vpre vpost campo (.vStr (hashpw p))
          (keys_ne_of_map (hvk.trans hdk) hkpre)
  · intro st hop
    unfold actualizarMysql at hop
    split at hop
    · exact absurd hop (by simp)
    split at hop
    · exact absurd hop (by simp)
    split at hop
    · exact absurd hop (by simp)
    split at hop
    · exact absurd hop (by simp)
    split at hop
    · exact absurd hop (by simp)
    rename_i df hprep
    obtain ⟨dpre, dpost, hdf, hdk⟩ :=
      prepararEncriptacion_middle hashpw cs campo p pre post hdir hp hcs hprep
    subst hdf
    unfold actualizarMysqlDesde at hop
    simp only [] at hop
    cases hvs : construirValoresMysql cat2 tabla
        (dpre ++ (campo, .vStr (hashpw p)) :: dpost) with
    | error e => rw [hvs] at hop; simp at hop
    | ok valores =>
      rw [hvs] at hop
      injection hop with hop2
      unfold construirValoresMysql at hvs
      obtain ⟨vpre, vpost, hval, hvk⟩ :=
        construirValores_middle _ (fun k => "p_" ++ k)
          (convertirEntradaMysql_key cat2 tabla) campo (hashpw p)
          (convertirEntradaMysql_mid cat2 tabla campo (hashpw p) hconvMy)
          dpre dpost hvs
      rw [← hop2]
      show List.lookup ("p_" ++ campo)
          (pyDictSet valores "valor_clave" (.vStr valorClave)) =
        some (.vStr (hashpw p))
      rw [lookup_pyDictSet_other valores "valor_clave" ("p_" ++ campo)
        (.vStr valorClave) (beq_eq_false_iff_ne.mpr hkclaveMy)]
      rw [hval]
      refine lookup_middle vpre vpost ("p_" ++ campo) (.vStr (hashpw p)) ?_
      refine keys_ne_of_map hvk ?_
      intro k hkm
      obtain ⟨kv, hkv, he⟩ := List.mem_map.mp hkm
      rw [← he]
      intro heq
      have hkv1 : kv.1 = campo := string_append_left_inj "p_" heq
      have hmem : kv.1 ∈ pre.map Prod.fst := hdk ▸ List.mem_map_of_mem Prod.fst hkv
      exact hkpre kv.1 hmem hkv1
  · intro hne heq
    exact hne (by injection heq)
  · unfold verificarM
    rw [if_neg (by simp [hp]), if_neg (by simp [hhne]), hcontract p]

/-- Claim C5, witness: the create conjunct applied at a concrete payload
and directive --- the bound value for the `Password` field is the hash, and
verification of the plaintext against it succeeds. -/
theorem cifradoDirectivaCamposPorDialecto_testigo :
    List.lookup "Password"
        (Stmt.mk "INSERT INTO [dbo].[t] ([email], [Password]) VALUES (:email, :Password)"
          [("email", PyVal.vStr "a@b.com"), ("Password", PyVal.vStr "#pw1")]).params =
      some (PyVal.vStr ((fun s => "#" ++ s) "pw1")) ∧
    verificarM (fun q h => h == "#" ++ q) "pw1" ((fun s => "#" ++ s) "pw1") =
      .ok true := by
  have hmain := cifradoDirectivaCamposPorDialecto (fun s => "#" ++ s)
    (fun q h => h == "#" ++ q) (fun _ _ _ => .ok (some "varchar"))
    (fun _ _ => .ok (some "varchar")) "t" "Password" "pw1" "password" "id" "7"
    none [("email", PyVal.vStr "a@b.com")] []
    (by decide) (by decide) (by decide) (by decide) (by decide) (by decide)
    (by decide) (by decide) (by decide)
    (fun q => beq_self_eq_true ("#" ++ q))
  exact ⟨hmain.1 _ (by decide), hmain.2.2.2.2.2.2.2⟩

/-- Claim C7, SQL Server part: with the schema argument omitted, every
statement built by the SQL Server repository qualifies the table as
`[dbo].[tabla]`. -/
theorem esquemaPorDefectoSqlServer :
    (∀ tabla limite st, obtenerFilasSqlServer tabla none limite = .ok st →
      st.sql = "SELECT TOP (" ++ toString (pyOrInt limite 1000) ++
        ") * FROM [" ++ "dbo" ++ "].[" ++ tabla ++ "]") ∧
    (∀ cat tabla clave valor st,
      obtenerPorClaveSqlServer cat tabla clave valor none = .ok st →
      (∃ c, st.sql = "SELECT * FROM [" ++ "dbo" ++ "].[" ++ tabla ++
        "] WHERE CAST([" ++ c ++ "] AS DATE) = :valor") ∨
      (∃ c, st.sql = "SELECT * FROM [" ++ "dbo" ++ "].[" ++ tabla ++
        "] WHERE [" ++ c ++ "] = :valor")) ∧
    (∀ hashpw cat tabla datos ce st,
      crearSqlServer hashpw cat tabla datos none ce = .ok st →
      ∃ c q, st.sql = "INSERT INTO [" ++ "dbo" ++ "].[" ++ tabla ++ "] (" ++
        c ++ ") VALUES (" ++ q ++ ")") ∧
    (∀ hashpw cat tabla clave valorClave datos ce st,
      actualizarSqlServer hashpw cat tabla clave valorClave datos none ce = .ok st →
      ∃ c, st.sql = "UPDATE [" ++ "dbo" ++ "].[" ++ tabla ++ "] SET " ++ c ++
        " WHERE [" ++ clave ++ "] = :valor_clave") ∧
    (∀ cat tabla clave valorClave st,
      eliminarSqlServer cat tabla clave valorClave none = .ok st →
      st.sql = "DELETE FROM [" ++ "dbo" ++ "].[" ++ tabla ++ "] WHERE [" ++
        clave ++ "] = :valor_clave") ∧
    (∀ fila tabla cu cc vu r,
      obtenerHashContrasenaSqlServer fila tabla cu cc vu none = .ok r →
      r.1.sql = "SELECT [" ++ cc ++ "] FROM [" ++ "dbo" ++ "].[" ++ tabla ++
        "] WHERE [" ++ cu ++ "] = :valor_usuario") := by
  have hdbo : esquemaFinalSqlServer none = "dbo" := by decide
  refine ⟨?_, ?_, ?_, ?_, ?_, ?_⟩
  · intro tabla limite st h
    unfold obtenerFilasSqlServer at h
    split at h
    · exact absurd h (by simp)
    injection h with h2
    rw [← h2]
    show "SELECT TOP (" ++ toString (pyOrInt limite 1000) ++ ") * FROM [" ++
      esquemaFinalSqlServer none ++ "].[" ++ tabla ++ "]" = _
    rw [hdbo]
  · intro cat tabla clave valor st h
    unfold obtenerPorClaveSqlServer at h
    split at h
    · exact absurd h (by simp)
    split at h
    · exact absurd h (by simp)
    split at h
    · exact absurd h (by simp)
    simp only [] at h
    by_cases hbr : ((detectarTipoColumnaSqlServer cat tabla
        (esquemaFinalSqlServer none) clave == some "datetime" ||
        detectarTipoColumnaSqlServer cat tabla (esquemaFinalSqlServer none) clave ==
          some "datetime2") && esFechaSinHora valor) = true
    · rw [if_pos hbr] at h
      cases he : extraerSoloFecha valor with
      | error e => rw [he] at h; simp at h
      | ok d =>
        rw [he] at h
        injection h with h2
        refine Or.inl ⟨clave, ?_⟩
        rw [← h2]
        show "SELECT * FROM [" ++ esquemaFinalSqlServer none ++ "].[" ++ tabla ++
          "] WHERE CAST([" ++ clave ++ "] AS DATE) = :valor" = _
        rw [hdbo]
    · rw [if_neg hbr] at h
      cases hc : convertirValorSqlServer valor
          (detectarTipoColumnaSqlServer cat tabla (esquemaFinalSqlServer none)
            clave) with
      | error e => rw [hc] at h; simp at h
      | ok w =>
        rw [hc] at h
        injection h with h2
        refine Or.inr ⟨clave, ?_⟩
        rw [← h2]
        show "SELECT * FROM [" ++ esquemaFinalSqlServer none ++ "].[" ++ tabla ++
          "] WHERE [" ++ clave ++ "] = :valor" = _
        rw [hdbo]
  · intro hashpw cat tabla datos ce st h
    unfold crearSqlServer at h
    split at h
    · exact absurd h (by simp)
    split at h
    · exact absurd h (by simp)
    split at h
    · exact absurd h (by simp)
    rename_i df hprep
    unfold crearSqlServerDesde at h
    simp only [] at h
    split at h
    · rename_i valores hvalores
      injection h with h2
      refine ⟨String.intercalate ", " (df.map (fun kv => "[" ++ kv.1 ++ "]")),
        String.intercalate ", " (df.map (fun kv => ":" ++ kv.1)), ?_⟩
      rw [← h2]
      show "INSERT INTO [" ++ esquemaFinalSqlServer none ++ "].[" ++ tabla ++
        "] (" ++ _ ++ ") VALUES (" ++ _ ++ ")" = _
      rw [hdbo]
    · exact absurd h (by simp)
  · intro hashpw cat tabla clave valorClave datos ce st h
    unfold actualizarSqlServer at h
    split at h
    · exact absurd h (by simp)
    split at h
    · exact absurd h (by simp)
    split at h
    · exact absurd h (by simp)
    split at h
    · exact absurd h (by simp)
    split at h
    · exact absurd h (by simp)
    rename_i df hprep
    unfold actualizarSqlServerDesde at h
    simp only [] at h
    cases hvs : construirValoresSqlServer cat tabla (esquemaFinalSqlServer none)
        df with
    | error e => rw [hvs] at h; simp at h
    | ok valores =>
      rw [hvs] at h
      cases hkw : convertirValorSqlServer valorClave
          (detectarTipoColumnaSqlServer cat tabla (esquemaFinalSqlServer none)
            clave) with
      | error e => rw [hkw] at h; simp at h
      | ok w =>
        rw [hkw] at h
        injection h with h2
        refine ⟨String.intercalate ", "
          (df.map (fun kv => "[" ++ kv.1 ++ "] = :" ++ kv.1)), ?_⟩
        rw [← h2]
        show "UPDATE [" ++ esquemaFinalSqlServer none ++ "].[" ++ tabla ++
          "] SET " ++ _ ++ " WHERE [" ++ clave ++ "] = :valor_clave" = _
        rw [hdbo]
  · intro cat tabla clave valorClave st h
    unfold eliminarSqlServer at h
    split at h
    · exact absurd h (by simp)
    split at h
    · exact absurd h (by simp)
    split at h
    · exact absurd h (by simp)
    simp only [] at h
    cases hc : convertirValorSqlServer valorClave
        (detectarTipoColumnaSqlServer cat tabla (esquemaFinalSqlServer none)
          clave) with
    | error e => rw [hc] at h; simp at h
    | ok w =>
      rw [hc] at h
      injection h with h2
      rw [← h2]
      show "DELETE FROM [" ++ esquemaFinalSqlServer none ++ "].[" ++ tabla ++
        "] WHERE [" ++ clave ++ "] = :valor_clave" = _
      rw [hdbo]
  · intro fila tabla cu cc vu r h
    unfold obtenerHashContrasenaSqlServer at h
    split at h
    · exact absurd h (by simp)
    split at h
    · exact absurd h (by simp)
    split at h
    · exact absurd h (by simp)
    split at h
    · exact absurd h (by simp)
    injection h with h2
    rw [← h2]
    show "SELECT [" ++ cc ++ "] FROM [" ++ esquemaFinalSqlServer none ++
      "].[" ++ tabla ++ "] WHERE [" ++ cu ++ "] = :valor_usuario" = _
    rw [hdbo]

/-- Claim C7, PostgreSQL part: with the schema argument omitted, every
statement built by the PostgreSQL repository qualifies the table as
`"public"."tabla"`. -/
theorem esquemaPorDefectoPg :
    (∀ tabla limite st, obtenerFilasPg tabla none limite = .ok st →
      st.sql = "SELECT * FROM \"" ++ "public" ++ "\".\"" ++ tabla ++
        "\" LIMIT :limite") ∧
    (∀ cat tabla clave valor st,
      obtenerPorClavePg cat tabla clave valor none = .ok st →
      (∃ c, st.sql = "SELECT * FROM \"" ++ "public" ++ "\".\"" ++ tabla ++
        "\" WHERE CAST(\"" ++ c ++ "\" AS DATE) = :valor") ∨
      (∃ c, st.sql = "SELECT * FROM \"" ++ "public" ++ "\".\"" ++ tabla ++
        "\" WHERE \"" ++ c ++ "\" = :valor")) ∧
    (∀ hashpw cat tabla datos ce st,
      crearPg hashpw cat tabla datos none ce = .ok st →
      ∃ c q, st.sql = "INSERT INTO \"" ++ "public" ++ "\".\"" ++ tabla ++
        "\" (" ++ c ++ ") VALUES (" ++ q ++ ")") ∧
    (∀ hashpw cat tabla clave valorClave datos ce st,
      actualizarPg hashpw cat tabla clave valorClave datos none ce = .ok st →
      ∃ c, st.sql = "UPDATE \"" ++ "public" ++ "\".\"" ++ tabla ++ "\" SET " ++
        c ++ " WHERE \"" ++ clave ++ "\" = :valor_clave") ∧
    (∀ cat tabla clave valorClave st,
      eliminarPg cat tabla clave valorClave none = .ok st →
      st.sql = "DELETE FROM \"" ++ "public" ++ "\".\"" ++ tabla ++
        "\" WHERE \"" ++ clave ++ "\" = :valor_clave") ∧
    (∀ fila tabla cu cc vu r,
      obtenerHashContrasenaPg fila tabla cu cc vu none = .ok r →
      r.1.sql = "SELECT \"" ++ cc ++ "\" FROM \"" ++ "public" ++ "\".\"" ++
        tabla ++ "\" WHERE \"" ++ cu ++ "\" = :valor_usuario") := by
  have hpub : esquemaFinalPg none = "public" := by decide
  refine ⟨?_, ?_, ?_, ?_, ?_, ?_⟩
  · intro tabla limite st h
    unfold obtenerFilasPg at h
    split at h
    · exact absurd h (by simp)
    injection h with h2
    rw [← h2]
    show "SELECT * FROM \"" ++ esquemaFinalPg none ++ "\".\"" ++ tabla ++
      "\" LIMIT :limite" = _
    rw [hpub]
  · intro cat tabla clave valor st h
    unfold obtenerPorClavePg at h
    split at h
    · exact absurd h (by simp)
    split at h
    · exact absurd h (by simp)
    split at h
    · exact absurd h (by simp)
    simp only [] at h
    by_cases hbr : ((detectarTipoColumnaPg cat tabla (esquemaFinalPg none) clave ==
        some "timestamp without time zone" ||
        detectarTipoColumnaPg cat tabla (esquemaFinalPg none) clave ==
          some "timestamp with time zone") && esFechaSinHora valor) = true
    · rw [if_pos hbr] at h
      cases he : extraerSoloFecha valor with
      | error e => rw [he] at h; simp at h
      | ok d =>
        rw [he] at h
        injection h with h2
        refine Or.inl ⟨clave, ?_⟩
        rw [← h2]
        show "SELECT * FROM \"" ++ esquemaFinalPg none ++ "\".\"" ++ tabla ++
          "\" WHERE CAST(\"" ++ clave ++ "\" AS DATE) = :valor" = _
        rw [hpub]
    · rw [if_neg hbr] at h
      cases hc : convertirValorPostgres valor
          (detectarTipoColumnaPg cat tabla (esquemaFinalPg none) clave) with
      | error e => rw [hc] at h; simp at h
      | ok w =>
        rw [hc] at h
        injection h with h2
        refine Or.inr ⟨clave, ?_⟩
        rw [← h2]
        show "SELECT * FROM \"" ++ esquemaFinalPg none ++ "\".\"" ++ tabla ++
          "\" WHERE \"" ++ clave ++ "\" = :valor" = _
        rw [hpub]
  · intro hashpw cat tabla datos ce st h
    unfold crearPg at h
    split at h
    · exact absurd h (by simp)
    split at h
    · exact absurd h (by simp)
    split at h
    · exact absurd h (by simp)
    rename_i df hprep
    unfold crearPgDesde at h
    simp only [] at h
    split at h
    · rename_i valores hvalores
      injection h with h2
      refine ⟨String.intercalate ", " (df.map (fun kv => "\"" ++ kv.1 ++ "\"")),
        String.intercalate ", " (df.map (fun kv => ":" ++ kv.1)), ?_⟩
      rw [← h2]
      show "INSERT INTO \"" ++ esquemaFinalPg none ++ "\".\"" ++ tabla ++
        "\" (" ++ _ ++ ") VALUES (" ++ _ ++ ")" = _
      rw [hpub]
    · exact absurd h (by simp)
  · intro hashpw cat tabla clave valorClave datos ce st h
    unfold actualizarPg at h
    split at h
    · exact absurd h (by simp)
    split at h
    · exact absurd h (by simp)
    split at h
    · exact absurd h (by simp)
    split at h
    · exact absurd h (by simp)
    split at h
    · exact absurd h (by simp)
    rename_i df hprep
    unfold actualizarPgDesde at h
    simp only [] at h
    cases hvs : construirValoresPg cat tabla (esquemaFinalPg none) df with
    | error e => rw [hvs] at h; simp at h
    | ok valores =>
      rw [hvs] at h
      cases hkw : convertirValorPostgres valorClave
          (detectarTipoColumnaPg cat tabla (esquemaFinalPg none) clave) with
      | error e => rw [hkw] at h; simp at h
      | ok w =>
        rw [hkw] at h
        injection h with h2
        refine ⟨String.intercalate ", "
          (df.map (fun kv => "\"" ++ kv.1 ++ "\" = :" ++ kv.1)), ?_⟩
        rw [← h2]
        show "UPDATE \"" ++ esquemaFinalPg none ++ "\".\"" ++ tabla ++
          "\" SET " ++ _ ++ " WHERE \"" ++ clave ++ "\" = :valor_clave" = _
        rw [hpub]
  · intro cat tabla clave valorClave st h
    unfold eliminarPg at h
    split at h
    · exact absurd h (by simp)
    split at h
    · exact absurd h (by simp)
    split at h
    · exact absurd h (by simp)
    simp only [] at h
    cases hc : convertirValorPostgres valorClave
        (detectarTipoColumnaPg cat tabla (esquemaFinalPg none) clave) with
    | error e => rw [hc] at h; simp at h
    | ok w =>
      rw [hc] at h
      injection h with h2
      rw [← h2]
      show "DELETE FROM \"" ++ esquemaFinalPg none ++ "\".\"" ++ tabla ++
        "\" WHERE \"" ++ clave ++ "\" = :valor_clave" = _
      rw [hpub]
  · intro fila tabla cu cc vu r h
    unfold obtenerHashContrasenaPg at h
    split at h
    · exact absurd h (by simp)
    split at h
    · exact absurd h (by simp)
    split at h
    · exact absurd h (by simp)
    split at h
    · exact absurd h (by simp)
    injection h with h2
    rw [← h2]
    show "SELECT \"" ++ cc ++ "\" FROM \"" ++ esquemaFinalPg none ++
      "\".\"" ++ tabla ++ "\" WHERE \"" ++ cu ++ "\" = :valor_usuario" = _
    rw [hpub]

/-- Claim C7, MySQL/MariaDB part: with the schema argument omitted, every
statement built by the MySQL/MariaDB repository carries no schema qualifier
at all --- the schema prefix is the empty string and the table name follows
the `FROM`/`INTO`/`UPDATE` keyword directly. -/
theorem esquemaPorDefectoMysql :
    prefijoEsquemaMysql none = "" ∧
    (∀ tabla limite st, obtenerFilasMysql tabla none limite = .ok st →
      st.sql = "SELECT * FROM " ++ "" ++ "`" ++ tabla ++ "` LIMIT :limite") ∧
    (∀ cat tabla clave valor st,
      obtenerPorClaveMysql cat tabla clave valor none = .ok st →
      (∃ c, st.sql = "SELECT * FROM " ++ "" ++ "`" ++ tabla ++
        "` WHERE DATE(`" ++ c ++ "`) = :valor") ∨
      (∃ c, st.sql = "SELECT * FROM " ++ "" ++ "`" ++ tabla ++
        "` WHERE `" ++ c ++ "` = :valor")) ∧
    (∀ hashpw cat tabla datos ce st,
      crearMysql hashpw cat tabla datos none ce = .ok st →
      ∃ c q, st.sql = "INSERT INTO " ++ "" ++ "`" ++ tabla ++ "` (" ++ c ++
        ") VALUES (" ++ q ++ ")") ∧
    (∀ hashpw cat tabla clave valorClave datos ce st,
      actualizarMysql hashpw cat tabla clave valorClave datos none ce = .ok st →
      ∃ c, st.sql = "UPDATE " ++ "" ++ "`" ++ tabla ++ "` SET " ++ c ++
        " WHERE `" ++ clave ++ "` = :valor_clave") ∧
    (∀ tabla clave valorClave st,
      eliminarMysql tabla clave valorClave none = .ok st →
      st.sql = "DELETE FROM " ++ "" ++ "`" ++ tabla ++ "` WHERE `" ++ clave ++
        "` = :valor_clave") ∧
    (∀ fila tabla cu cc vu r,
      obtenerHashContrasenaMysql fila tabla cu cc vu none = .ok r →
      r.1.sql = "SELECT `" ++ cc ++ "` FROM " ++ "" ++ "`" ++ tabla ++
        "` WHERE `" ++ cu ++ "` = :valor_usuario LIMIT 1") := by
  refine ⟨rfl, ?_, ?_, ?_, ?_, ?_, ?_⟩
  · intro tabla limite st h
    unfold obtenerFilasMysql at h
    split at h
    · exact absurd h (by simp)
    injection h with h2
    rw [← h2, show prefijoEsquemaMysql none = ("" : String) from rfl]
  · intro cat tabla clave valor st h
    unfold obtenerPorClaveMysql at h
    split at h
    · exact absurd h (by simp)
    split at h
    · exact absurd h (by simp)
    split at h
    · exact absurd h (by simp)
    simp only [] at h
    by_cases hbr : ((detectarTipoColumnaMysql cat tabla clave == some "datetime" ||
        detectarTipoColumnaMysql cat tabla clave == some "timestamp") &&
        esFechaSinHora valor) = true
    · rw [if_pos hbr] at h
      cases he : extraerSoloFecha valor with
      | error e => rw [he] at h; simp at h
      | ok d =>
        rw [he] at h
        injection h with h2
        exact Or.inl ⟨clave, by rw [← h2, show prefijoEsquemaMysql none = ("" : String) from rfl]⟩
    · rw [if_neg hbr] at h
      cases hc : convertirValorMysql valor
          (detectarTipoColumnaMysql cat tabla clave) with
      | error e => rw [hc] at h; simp at h
      | ok w =>
        rw [hc] at h
        injection h with h2
        exact Or.inr ⟨clave, by rw [← h2, show prefijoEsquemaMysql none = ("" : String) from rfl]⟩
  · intro hashpw cat tabla datos ce st h
    unfold crearMysql at h
    split at h
    · exact absurd h (by simp)
    split at h
    · exact absurd h (by simp)
    split at h
    · exact absurd h (by simp)
    rename_i df hprep
    unfold crearMysqlDesde at h
    simp only [] at h
    split at h
    · rename_i valores hvalores
      injection h with h2
      exact ⟨String.intercalate ", " (df.map (fun kv => "`" ++ kv.1 ++ "`")),
        String.intercalate ", " (df.map (fun kv => ":p_" ++ kv.1)),
        by rw [← h2, show prefijoEsquemaMysql none = ("" : String) from rfl]⟩
    · exact absurd h (by simp)
  · intro hashpw cat tabla clave valorClave datos ce st h
    unfold actualizarMysql at h
    split at h
    · exact absurd h (by simp)
    split at h
    · exact absurd h (by simp)
    split at h
    · exact absurd h (by simp)
    split at h
    · exact absurd h (by simp)
    split at h
    · exact absurd h (by simp)
    rename_i df hprep
    unfold actualizarMysqlDesde at h
    simp only [] at h
    split at h
    · rename_i valores hvalores
      injection h with h2
      exact ⟨String.intercalate ", "
        (df.map (fun kv => "`" ++ kv.1 ++ "` = :p_" ++ kv.1)), by rw [← h2, show prefijoEsquemaMysql none = ("" : String) from rfl]⟩
    · exact absurd h (by simp)
  · intro tabla clave valorClave st h
    unfold eliminarMysql at h
    split at h
    · exact absurd h (by simp)
    split at h
    · exact absurd h (by simp)
    split at h
    · exact absurd h (by simp)
    injection h with h2
    rw [← h2, show prefijoEsquemaMysql none = ("" : String) from rfl]
  · intro fila tabla cu cc vu r h
    unfold obtenerHashContrasenaMysql at h
    split at h
    · exact absurd h (by simp)
    split at h
    · exact absurd h (by simp)
    split at h
    · exact absurd h (by simp)
    split at h
    · exact absurd h (by simp)
    injection h with h2
    rw [← h2, show prefijoEsquemaMysql none = ("" : String) from rfl]

/-- Claim C7: with the schema argument omitted, every statement built by
the SQL Server dialect qualifies the table with schema `dbo`, every
statement of the PostgreSQL dialect with `public`, and every statement of
the MySQL/MariaDB dialect carries no schema qualifier at all (its prefix is
the empty string). -/
theorem esquemaPorDefectoPorDialecto :
    ((∀ tabla limite st, obtenerFilasSqlServer tabla none limite = .ok st →
      st.sql = "SELECT TOP (" ++ toString (pyOrInt limite 1000) ++
        ") * FROM [" ++ "dbo" ++ "].[" ++ tabla ++ "]") ∧
    (∀ cat tabla clave valor st,
      obtenerPorClaveSqlServer cat tabla clave valor none = .ok st →
      (∃ c, st.sql = "SELECT * FROM [" ++ "dbo" ++ "].[" ++ tabla ++
        "] WHERE CAST([" ++ c ++ "] AS DATE) = :valor") ∨
      (∃ c, st.sql = "SELECT * FROM [" ++ "dbo" ++ "].[" ++ tabla ++
        "] WHERE [" ++ c ++ "] = :valor")) ∧
    (∀ hashpw cat tabla datos ce st,
      crearSqlServer hashpw cat tabla datos none ce = .ok st →
      ∃ c q, st.sql = "INSERT INTO [" ++ "dbo" ++ "].[" ++ tabla ++ "] (" ++
        c ++ ") VALUES (" ++ q ++ ")") ∧
    (∀ hashpw cat tabla clave valorClave datos ce st,
      actualizarSqlServer hashpw cat tabla clave valorClave datos none ce = .ok st →
      ∃ c, st.sql = "UPDATE [" ++ "dbo" ++ "].[" ++ tabla ++ "] SET " ++ c ++
        " WHERE [" ++ clave ++ "] = :valor_clave") ∧
    (∀ cat tabla clave valorClave st,
      eliminarSqlServer cat tabla clave valorClave none = .ok st →
      st.sql = "DELETE FROM [" ++ "dbo" ++ "].[" ++ tabla ++ "] WHERE [" ++
        clave ++ "] = :valor_clave") ∧
    (∀ fila tabla cu cc vu r,
      obtenerHashContrasenaSqlServer fila tabla cu cc vu none = .ok r →
      r.1.sql = "SELECT [" ++ cc ++ "] FROM [" ++ "dbo" ++ "].[" ++ tabla ++
        "] WHERE [" ++ cu ++ "] = :valor_usuario")) ∧
    ((∀ tabla limite st, obtenerFilasPg tabla none limite = .ok st →
      st.sql = "SELECT * FROM \"" ++ "public" ++ "\".\"" ++ tabla ++
        "\" LIMIT :limite") ∧
    (∀ cat tabla clave valor st,
      obtenerPorClavePg cat tabla clave valor none = .ok st →
      (∃ c, st.sql = "SELECT * FROM \"" ++ "public" ++ "\".\"" ++ tabla ++
        "\" WHERE CAST(\"" ++ c ++ "\" AS DATE) = :valor") ∨
      (∃ c, st.sql = "SELECT * FROM \"" ++ "public" ++ "\".\"" ++ tabla ++
        "\" WHERE \"" ++ c ++ "\" = :valor")) ∧
    (∀ hashpw cat tabla datos ce st,
      crearPg hashpw cat tabla datos none ce = .ok st →
      ∃ c q, st.sql = "INSERT INTO \"" ++ "public" ++ "\".\"" ++ tabla ++
        "\" (" ++ c ++ ") VALUES (" ++ q ++ ")") ∧
    (∀ hashpw cat tabla clave valorClave datos ce st,
      actualizarPg hashpw cat tabla clave valorClave datos none ce = .ok st →
      ∃ c, st.sql = "UPDATE \"" ++ "public" ++ "\".\"" ++ tabla ++ "\" SET " ++
        c ++ " WHERE \"" ++ clave ++ "\" = :valor_clave") ∧
    (∀ cat tabla clave valorClave st,
      eliminarPg cat tabla clave valorClave none = .ok st →
      st.sql = "DELETE FROM \"" ++ "public" ++ "\".\"" ++ tabla ++
        "\" WHERE \"" ++ clave ++ "\" = :valor_clave") ∧
    (∀ fila tabla cu cc vu r,
      obtenerHashContrasenaPg fila tabla cu cc vu none = .ok r →
      r.1.sql = "SELECT \"" ++ cc ++ "\" FROM \"" ++ "public" ++ "\".\"" ++
        tabla ++ "\" WHERE \"" ++ cu ++ "\" = :valor_usuario")) ∧
    (prefijoEsquemaMysql none = "" ∧
    (∀ tabla limite st, obtenerFilasMysql tabla none limite = .ok st →
      st.sql = "SELECT * FROM " ++ "" ++ "`" ++ tabla ++ "` LIMIT :limite") ∧
    (∀ cat tabla clave valor st,
      obtenerPorClaveMysql cat tabla clave valor none = .ok st →
      (∃ c, st.sql = "SELECT * FROM " ++ "" ++ "`" ++ tabla ++
        "` WHERE DATE(`" ++ c ++ "`) = :valor") ∨
      (∃ c, st.sql = "SELECT * FROM " ++ "" ++ "`" ++ tabla ++
        "` WHERE `" ++ c ++ "` = :valor")) ∧
    (∀ hashpw cat tabla datos ce st,
      crearMysql hashpw cat tabla datos none ce = .ok st →
      ∃ c q, st.sql = "INSERT INTO " ++ "" ++ "`" ++ tabla ++ "` (" ++ c ++
        ") VALUES (" ++ q ++ ")") ∧
    (∀ hashpw cat tabla clave valorClave datos ce st,
      actualizarMysql hashpw cat tabla clave valorClave datos none ce = .ok st →
      ∃ c, st.sql = "UPDATE " ++ "" ++ "`" ++ tabla ++ "` SET " ++ c ++
        " WHERE `" ++ clave ++ "` = :valor_clave") ∧
    (∀ tabla clave valorClave st,
      eliminarMysql tabla clave valorClave none = .ok st →
      st.sql = "DELETE FROM " ++ "" ++ "`" ++ tabla ++ "` WHERE `" ++ clave ++
        "` = :valor_clave") ∧
    (∀ fila tabla cu cc vu r,
      obtenerHashContrasenaMysql fila tabla cu cc vu none = .ok r →
      r.1.sql = "SELECT `" ++ cc ++ "` FROM " ++ "" ++ "`" ++ tabla ++
        "` WHERE `" ++ cu ++ "` = :valor_usuario LIMIT 1")) :=
  ⟨esquemaPorDefectoSqlServer, esquemaPorDefectoPg, esquemaPorDefectoMysql⟩

/-- Claim C7, witness: the delete conjuncts of all three dialects applied
at concrete inputs with the schema omitted. -/
theorem esquemaPorDefectoPorDialecto_testigo :
    (Stmt.mk "DELETE FROM [dbo].[t] WHERE [id] = :valor_clave"
        [("valor_clave", PyVal.vStr "30")]).sql =
      "DELETE FROM [" ++ "dbo" ++ "].[" ++ "t" ++ "] WHERE [" ++ "id" ++
        "] = :valor_clave" ∧
    (Stmt.mk "DELETE FROM `t` WHERE `id` = :valor_clave"
        [("valor_clave", PyVal.vStr "30")]).sql =
      "DELETE FROM " ++ "" ++ "`" ++ "t" ++ "` WHERE `" ++ "id" ++
        "` = :valor_clave" :=
  ⟨esquemaPorDefectoPorDialecto.1.2.2.2.2.1 (fun _ _ _ => .error ()) "t" "id"
     "30" _ (by decide),
   esquemaPorDefectoPorDialecto.2.2.2.2.2.2.2.1 "t" "id" "30" _ (by decide)⟩

end ApiCrud
